import Mathlib

/-! ATM money-movement core: withdraw, deposit, transfer, and the scheduled-transfer consumer.

A shallow embedding of `atm/usecase/transaction_ucase.go`, `atm/usecase/account_ucase.go`,
`atm/usecase/scheduled_transaction_ucase.go`, `atm/repository/mysql/mysql_account.go` and
`atm/delivery/http/transaction_handler.go`.

Modelling conventions

* Go `float64` amounts are exact rationals (`ℚ`): rounding, infinities and NaN are not modelled.
* The database table `banking.accounts` is the list of its rows; the Redis cache is a function
  from keys to the reply of a `GET`.
* Infrastructure failures (driver errors of the SQL connection, errors of the Redis client) are
  fields of the world that say which calls fail, so every error branch of the source is reachable.
* A Go method `f(ctx, x) (err error)` that mutates state becomes a function from the world to the
  returned error (`none` is `nil`) and the world it leaves behind. Context deadlines are not
  modelled.
* `strconv.ParseFloat` belongs to the Go standard library; it is a parameter `pf`, the first
  return value of `strconv.ParseFloat(s, 64)` (every call site discards the error).
-/

set_option autoImplicit false

namespace Atm

/-- Instants (`time.Time`), as a count of nanoseconds. -/
abbrev Time := Int

/-- The error values the code returns. The sentinels of package `domain` keep their names;
`errorf` is a value built by `fmt.Errorf`, `driver` an error of the SQL driver or of the Redis
client, `nilDeref` the run-time panic of dereferencing a nil pointer, `indexPanic` the run-time
panic of indexing a slice out of range. -/
inductive Error where
  | ErrInternalServerError
  | ErrNotFound
  | ErrConflict
  | ErrBadParamInput
  | ErrInsufficientBalance
  | ErrMinimumDeposit
  | ErrResipientNotFound
  | ErrAccDeleted
  | ErrExceedLimitAmountPerTransaction
  | errorf (msg : String)
  | driver (msg : String)
  | nilDeref
  | indexPanic
deriving DecidableEq, Repr

/-- The struct `domain.Account`. -/
structure Account where
  AccountNo : String
  Uuid : String
  Name : String
  Email : String
  Tel : String
  Balance : ℚ
  Bank : String
  Status : String
  CreatedAt : Option Time
  UpdatedAt : Option Time
  IsClosed : Int
deriving DecidableEq, Repr

/-- The struct `domain.Transaction` (field `Type` is spelled `Typ`). -/
structure Transaction where
  Id : Int
  Amount : ℚ
  Typ : String
  Fee : ℚ
  Total : ℚ
  SubmittedAt : Time
  CreatedAt : Time
  Account : Atm.Account
  Receiver : Atm.Account
deriving DecidableEq, Repr

/-- The struct `domain.ScheduledTransaction` (field `Type` is spelled `Typ`). -/
structure ScheduledTransaction where
  Id : Int
  Amount : ℚ
  Typ : String
  Account : Atm.Account
  Receiver : Atm.Account
  Status : String
  SubmittedAt : Time
  CreatedAt : Time
  ScheduledExecutionAt : String
  UpdatedAt : Time
deriving DecidableEq, Repr

/-- The result of `redis.Get(key).Result()`: a value, `redis.Nil` (key absent), or another
error of the client (the returned string is then empty). -/
inductive RedisReply where
  | val (s : String)
  | Nil
  | fail
deriving DecidableEq, Repr

/-- The state the orchestrator works on. -/
structure World where
  /-- Rows of `banking.accounts`, in table order. -/
  accounts : List Account
  /-- Reply of `GET key`. -/
  redis : String → RedisReply
  /-- The `SELECT` for this account number returns an error (query or scan). -/
  queryErr : String → Bool
  /-- The `UPDATE` for this account number returns an error (prepare, exec or rows-affected). -/
  execErr : String → Bool
  /-- The `DEL` of this cache key returns an error. -/
  delErr : String → Bool
  /-- The transaction store reports an error on insert. -/
  createErr : Bool
  /-- Writing the daily running sum reports an error. -/
  sumErr : Bool
  /-- Reading of `time.Now()`. -/
  now : Time
  /-- Records handed to the transaction store, oldest first. -/
  transactions : List Transaction
  /-- Dispatched `go a.addTransactionNotiToQueue(ctx, *tr, remainingBalance)` calls, oldest first. -/
  outbox : List (Transaction × ℚ)
  /-- Rows of the scheduled-transaction table, in table order. -/
  scheduled : List ScheduledTransaction
  /-- The scheduled-transaction store reports an error on insert or update. -/
  scheduledErr : Bool

/-- What an orchestrator call leaves behind: the returned error, the world, and `*tr`. -/
structure Outcome where
  err : Option Error
  world : World
  tr : Transaction

/-! ## Ledger accessor (`mysql_account.go`) -/

/-- The function `getAllAccount` for the query
`SELECT * FROM banking.accounts WHERE account_no = ?`. -/
def getAllAccount (w : World) (account_no : String) : Except Error (List Account) :=
  if w.queryErr account_no then .error (.driver "query")
  else .ok (w.accounts.filter (fun a => a.AccountNo = account_no))

/-- The function `fetchAccountFromDatabase`: first row of the result or `ErrNotFound`. -/
def fetchAccountFromDatabase (w : World) (account_no : String) : Except Error Account :=
  match getAllAccount w account_no with
  | .error e => .error e
  | .ok list =>
    match list with
    | a :: _ => .ok a
    | [] => .error .ErrNotFound

/-- The method `mysqlAccountRepository.GetAccountByAccountNo`, and the usecase method of the
same name that only forwards to it. The result `.ok none` stands for `(nil, nil)`. -/
def GetAccountByAccountNo (w : World) (account_no : String) : Except Error (Option Account) :=
  match fetchAccountFromDatabase w account_no with
  | .error e => .error e
  | .ok account => .ok (some account)

/-- The rows after `UPDATE banking.accounts set balance=?, updated_at=? WHERE account_no = ?`. -/
def updateRows (rows : List Account) (ar : Account) : List Account :=
  rows.map (fun r =>
    if r.AccountNo = ar.AccountNo then { r with Balance := ar.Balance, UpdatedAt := ar.UpdatedAt }
    else r)

/-- Cache key `fmt.Sprintf("account_no: %s", no)`. -/
def accountCacheKey (no : String) : String := "account_no: " ++ no

/-- The rows-affected count checked by `mysqlAccountRepository.UpdateAccount`. -/
def rowsAffected (rows : List Account) (ar : Account) : Nat :=
  rows.countP (fun r => r.AccountNo = ar.AccountNo)

/-- The method `mysqlAccountRepository.UpdateAccount`, on an account whose `UpdatedAt` has
already been set: the statement runs, then the affected-row count is checked, then the cached
snapshot is deleted. -/
def repoUpdateAccount (w : World) (ar : Account) : Option Error × World :=
  if w.execErr ar.AccountNo then (some (.driver "exec"), w)
  else
    let w1 := { w with accounts := updateRows w.accounts ar }
    if rowsAffected w.accounts ar ≠ 1 then
      (some (.errorf ("weird  Behavior. Total Affected: " ++ toString (rowsAffected w.accounts ar))), w1)
    else if w.delErr (accountCacheKey ar.AccountNo) then (some (.driver "del"), w1)
    else
      (none, { w1 with
        redis := fun k => if k = accountCacheKey ar.AccountNo then .Nil else w.redis k })

/-- The method `accountUsecase.UpdateAccount`: `*ar.UpdatedAt = time.Now()`, then the repository
update. Returns the error, the world and the account as left in `*ar`. -/
def UpdateAccount (w : World) (ar : Account) : Option Error × World × Account :=
  match ar.UpdatedAt with
  | none => (some .nilDeref, w, ar)
  | some _ =>
    let ar1 := { ar with UpdatedAt := some w.now }
    ((repoUpdateAccount w ar1).1, (repoUpdateAccount w ar1).2, ar1)

/-! ## Limit guard (`account_ucase.go`, `transaction_ucase.go`) -/

/-- The method `accountUsecase.GetDailyLimit`. -/
def GetDailyLimit (pf : String → ℚ) (w : World) (account_no : String) : ℚ × Option Error :=
  match w.redis ("daily_limit_" ++ account_no) with
  | .Nil =>
    match w.redis "default_daily_limit" with
    | .val dailyLimit => (pf dailyLimit, none)
    | _ => (pf "", none)
  | .val dailyLimit => (pf dailyLimit, none)
  | .fail => (pf "", none)

/-- The method `accountUsecase.GetSumDailyTransaction`. -/
def GetSumDailyTransaction (pf : String → ℚ) (w : World) (account_no : String) :
    ℚ × Option Error :=
  match w.redis ("daily_transaction_" ++ account_no) with
  | .Nil => (0, none)
  | .val sumDailyTransaction => (pf sumDailyTransaction, none)
  | .fail => (pf "", none)

/-- The method `checkTransactionLimit`: `true` means the daily check passes. -/
def checkTransactionLimit (pf : String → ℚ) (w : World) (tr : Transaction) : Bool :=
  match GetDailyLimit pf w tr.Account.AccountNo with
  | (_, some _) => false
  | (dailyLimit, none) =>
    let dailySumTransaction := (GetSumDailyTransaction pf w tr.Account.AccountNo).1
    if tr.Amount + dailySumTransaction > dailyLimit then false else true

/-- The function `calculateTransferFee`. -/
def calculateTransferFee (acc res_acc : Account) : ℚ :=
  if acc.Bank ≠ res_acc.Bank then 10 else 0

/-- The method `checkTransferLimit`. -/
def checkTransferLimit (pf : String → ℚ) (w : World) (AccountNo : String) (amount : ℚ) :
    Option Error :=
  let limitAmountPerTransaction : String :=
    match w.redis ("limit_per_transaction: " ++ AccountNo) with
    | .val s => s
    | .Nil => "0"
    | .fail => ""
  let limitAmountPerTransactionFloat64 := pf limitAmountPerTransaction
  if limitAmountPerTransactionFloat64 ≠ 0 ∧ amount > limitAmountPerTransactionFloat64 then
    some .ErrExceedLimitAmountPerTransaction
  else none

/-! ## Transaction store (repository file not among the sources) -/

/-- Modelled from the spec: the method `TransactionRepository.CreateTransaction`, whose
implementation is not among the sources. The spec says the orchestrator must "create the
transaction record", one record per successful operation, immutable once created: the record
handed over is appended to the store, unless the store reports an error and stores nothing. -/
def CreateTransaction (w : World) (tr : Transaction) : Option Error × World :=
  if w.createErr then (some (.driver "insert"), w)
  else (none, { w with transactions := w.transactions ++ [tr] })

/-- The method `createTransaction`, which forwards to the repository. -/
def createTransaction (w : World) (tr : Transaction) : Option Error × World :=
  CreateTransaction w tr

/-- Modelled from the spec: the method `TransactionRepository.SetTransferAmountPerDayInRedis`,
whose implementation is not among the sources. The spec says the running sum is updated by
"append-today's-amount into the cached counter" under the key `daily_transaction_<account>`:
the entry of the sender becomes the old sum plus the amount (`ff` renders the number as the
cache stores it), unless the cache reports an error and nothing is written. -/
def SetTransferAmountPerDayInRedis (pf : String → ℚ) (ff : ℚ → String) (w : World)
    (tr : Transaction) : Option Error × World :=
  if w.sumErr then (some (.driver "set"), w)
  else
    let key := "daily_transaction_" ++ tr.Account.AccountNo
    let old : ℚ :=
      match w.redis key with
      | .val s => pf s
      | _ => 0
    (none, { w with redis := fun k => if k = key then .val (ff (old + tr.Amount)) else w.redis k })

/-! ## Transfer orchestrator (`transaction_ucase.go`) -/

/-- The method `transactionUsecase.Withdraw`. -/
def Withdraw (w : World) (tr : Transaction) : Outcome :=
  match GetAccountByAccountNo w tr.Account.AccountNo with
  | .error e => ⟨some e, w, tr⟩
  | .ok none => ⟨some .nilDeref, w, tr⟩
  | .ok (some acc) =>
    if acc.Balance < tr.Amount then ⟨some .ErrInsufficientBalance, w, tr⟩
    else
      let acc1 := { acc with Balance := acc.Balance - tr.Amount }
      match UpdateAccount w acc1 with
      | (some e, w1, _) => ⟨some e, w1, tr⟩
      | (none, w1, acc2) =>
        match createTransaction w1 tr with
        | (some e, w2) => ⟨some e, w2, tr⟩
        | (none, w2) =>
          let tr1 := { tr with Account := acc2 }
          ⟨none, { w2 with outbox := w2.outbox ++ [(tr1, acc2.Balance)] }, tr1⟩

/-- The method `transactionUsecase.Deposit`. -/
def Deposit (pf : String → ℚ) (w : World) (tr : Transaction) : Outcome :=
  match GetAccountByAccountNo w tr.Account.AccountNo with
  | .error e => ⟨some e, w, tr⟩
  | .ok accPtr =>
    match w.redis "min_deposit_amount" with
    | .Nil => ⟨some (.errorf "redis key min_deposit_amount is missing"), w, tr⟩
    | .fail => ⟨some (.errorf "redis key min_deposit_amount is missing"), w, tr⟩
    | .val limitAmount =>
      let floatLimitAmount := pf limitAmount
      if floatLimitAmount > tr.Amount then ⟨some .ErrMinimumDeposit, w, tr⟩
      else
        match accPtr with
        | none => ⟨some .nilDeref, w, tr⟩
        | some acc =>
          let acc1 := { acc with Balance := acc.Balance + tr.Amount }
          match UpdateAccount w acc1 with
          | (some e, w1, _) => ⟨some e, w1, tr⟩
          | (none, w1, acc2) =>
            match createTransaction w1 tr with
            | (some e, w2) => ⟨some e, w2, tr⟩
            | (none, w2) =>
              let tr1 := { tr with Account := acc2 }
              ⟨none, { w2 with outbox := w2.outbox ++ [(tr1, acc2.Balance)] }, tr1⟩

/-- The method `transactionUsecase.Transfer`. -/
def Transfer (pf : String → ℚ) (ff : ℚ → String) (w : World) (tr : Transaction) : Outcome :=
  if checkTransactionLimit pf w tr = false then ⟨some (.errorf "exceed limit per day"), w, tr⟩
  else
    match GetAccountByAccountNo w tr.Account.AccountNo with
    | .error e => ⟨some e, w, tr⟩
    | .ok accPtr =>
      match GetAccountByAccountNo w tr.Receiver.AccountNo with
      | .error e => ⟨some e, w, tr⟩
      | .ok none => ⟨some .ErrResipientNotFound, w, tr⟩
      | .ok (some res_acc) =>
        if res_acc.Status = "inactive" then ⟨some .ErrAccDeleted, w, tr⟩
        else
          match accPtr with
          | none => ⟨some .nilDeref, w, tr⟩
          | some acc =>
            match checkTransferLimit pf w acc.AccountNo tr.Amount with
            | some e => ⟨some e, w, tr⟩
            | none =>
              let tr1 := { tr with Fee := calculateTransferFee acc res_acc }
              let tr2 := { tr1 with Total := tr1.Amount + tr1.Fee }
              if acc.Balance < tr2.Total then ⟨some .ErrInsufficientBalance, w, tr2⟩
              else
                let acc1 := { acc with Balance := acc.Balance - tr2.Total }
                let res_acc1 := { res_acc with Balance := res_acc.Balance + tr2.Amount }
                match UpdateAccount w acc1 with
                | (some e, w1, _) => ⟨some e, w1, tr2⟩
                | (none, w1, acc2) =>
                  match UpdateAccount w1 res_acc1 with
                  | (some e, w2, _) => ⟨some e, w2, tr2⟩
                  | (none, w2, res_acc2) =>
                    match createTransaction w2 tr2 with
                    | (some e, w3) => ⟨some e, w3, tr2⟩
                    | (none, w3) =>
                      match SetTransferAmountPerDayInRedis pf ff w3 tr2 with
                      | (some e, w4) => ⟨some e, w4, tr2⟩
                      | (none, w4) =>
                        let tr3 := { tr2 with Account := acc2, Receiver := res_acc2 }
                        ⟨none, { w4 with outbox := w4.outbox ++ [(tr3, acc2.Balance)] }, tr3⟩

/-! ## Scheduled-transfer consumer (`scheduled_transaction_ucase.go`) -/

/-- The library function `strings.Split` for a separator of one character, on the characters
of the string: the pieces between successive separators, in order; n separators give n + 1
pieces, some possibly empty. -/
def splitChars (sep : Char) : List Char → List (List Char)
  | [] => [[]]
  | c :: cs =>
    if c = sep then [] :: splitChars sep cs
    else
      match splitChars sep cs with
      | [] => [[c]]
      | piece :: rest => (c :: piece) :: rest

/-- The call `strings.Split(s, sep)` for a separator of one character. -/
def strings.Split (s : String) (sep : Char) : List String :=
  (splitChars sep s.data).map String.mk

/-- The zero value of `domain.Account`. -/
def zeroAccount : Account :=
  { AccountNo := "", Uuid := "", Name := "", Email := "", Tel := "", Balance := 0, Bank := "",
    Status := "", CreatedAt := none, UpdatedAt := none, IsClosed := 0 }

/-- The zero value of `domain.Transaction`. -/
def zeroTransaction : Transaction :=
  { Id := 0, Amount := 0, Typ := "", Fee := 0, Total := 0, SubmittedAt := 0, CreatedAt := 0,
    Account := zeroAccount, Receiver := zeroAccount }

/-- The zero value of `domain.ScheduledTransaction`. -/
def zeroScheduledTransaction : ScheduledTransaction :=
  { Id := 0, Amount := 0, Typ := "", Account := zeroAccount, Receiver := zeroAccount,
    Status := "", SubmittedAt := 0, CreatedAt := 0, ScheduledExecutionAt := "", UpdatedAt := 0 }

/-- Modelled from the spec: the method `TransactionRepository.UpdateScheduledTransaction`,
whose implementation is not among the sources. The spec says the consumer must "mark the
originating ScheduledTransaction `processed` by id": every row with the id of the record
handed over takes its status, unless the store reports an error and changes nothing. -/
def repoUpdateScheduledTransaction (w : World) (tr : ScheduledTransaction) :
    Option Error × World :=
  if w.scheduledErr then (some (.driver "update"), w)
  else
    (none, { w with
      scheduled := w.scheduled.map (fun r => if r.Id = tr.Id then { r with Status := tr.Status }
        else r) })

/-- The method `transactionUsecase.UpdateScheduledTransaction`. -/
def UpdateScheduledTransaction (w : World) (id : Int) : Option Error × World :=
  let transaction : ScheduledTransaction :=
    { zeroScheduledTransaction with Id := id, Status := "processed" }
  repoUpdateScheduledTransaction w transaction

/-- The transaction that `processScheduleTransaction` builds from the fields 1 to 5 of the
message, before calling Transfer. -/
def scheduledRequest (pf : String → ℚ) (pTime : String → Time) (f1 f2 f3 f4 f5 : String) :
    Transaction :=
  { zeroTransaction with
    Typ := f1, Amount := pf f2,
    Account := { zeroAccount with AccountNo := f3 },
    Receiver := { zeroAccount with AccountNo := f4 },
    SubmittedAt := pTime f5 }

/-- The method `processScheduleTransaction`. The parameters `pInt` and `pTime` are the first
return values of `strconv.ParseInt(s, 10, 64)` and of `time.Parse(timeLayout, s)`, whose errors
the code ignores. A message of fewer than six fields is only reported on the console; the
code then indexes the missing field and panics, before Transfer is called. -/
def processScheduleTransaction (pf : String → ℚ) (ff : ℚ → String) (pInt : String → Int)
    (pTime : String → Time) (w : World) (message : String) : Outcome :=
  match strings.Split message '|' with
  | f0 :: f1 :: f2 :: f3 :: f4 :: f5 :: _ =>
    let out := Transfer pf ff w (scheduledRequest pf pTime f1 f2 f3 f4 f5)
    match out.err with
    | some e => ⟨some e, out.world, out.tr⟩
    | none =>
      let id := pInt f0
      ⟨(UpdateScheduledTransaction out.world id).1, (UpdateScheduledTransaction out.world id).2,
        out.tr⟩
  | _ => ⟨some .indexPanic, w, zeroTransaction⟩

/-! ## HTTP handler (`transaction_handler.go`, `account_handler.go`) -/

/-- The function `getStatusCode`. -/
def getStatusCode (err : Option Error) : Nat :=
  match err with
  | none => 200
  | some .ErrInternalServerError => 500
  | some .ErrNotFound => 404
  | some .ErrConflict => 409
  | some _ => 500

/-- The method `TransactionHandler.Transfer` on the result of `c.Bind` (`none`: the body could
not be bound). Returns the HTTP status and the world; the orchestrator is invoked only on the
last branch. -/
def TransactionHandler.Transfer (pf : String → ℚ) (ff : ℚ → String) (w : World)
    (body : Option Transaction) : Nat × World :=
  match body with
  | none => (422, w)
  | some transaction =>
    if transaction.Typ ≠ "transfer" then (400, w)
    else if transaction.Account.AccountNo = transaction.Receiver.AccountNo then (400, w)
    else if transaction.Amount ≤ 0 then (400, w)
    else
      let out := Atm.Transfer pf ff w { transaction with SubmittedAt := w.now }
      match out.err with
      | some e => (getStatusCode (some e), out.world)
      | none => (201, out.world)

/-- Modelled from the spec: the method `TransactionRepository.CreateScheduledTransaction`,
whose implementation is not among the sources. The spec says that saving "persists a new record
with status implicitly pending": the record is appended to the table with status "pending",
unless the store reports an error and stores nothing. -/
def CreateScheduledTransaction (w : World) (st : ScheduledTransaction) : Option Error × World :=
  if w.scheduledErr then (some (.driver "insert"), w)
  else (none, { w with scheduled := w.scheduled ++ [{ st with Status := "pending" }] })

/-- The method `transactionUsecase.SaveScheduledTransaction`. -/
def SaveScheduledTransaction (w : World) (transaction : ScheduledTransaction) :
    Option Error × World :=
  CreateScheduledTransaction w transaction

/-- The method `TransactionHandler.ScheduledTransaction` on the result of `c.Bind` (`none`: the
body could not be bound). Returns the HTTP status and the world; the usecase is invoked only on
the last branch. -/
def TransactionHandler.ScheduledTransaction (w : World) (body : Option ScheduledTransaction) :
    Nat × World :=
  match body with
  | none => (422, w)
  | some transaction =>
    if transaction.Typ ≠ "transfer" then (400, w)
    else if transaction.Account.AccountNo = transaction.Receiver.AccountNo then (400, w)
    else if transaction.Amount ≤ 0 then (400, w)
    else
      match SaveScheduledTransaction w { transaction with SubmittedAt := w.now } with
      | (some e, w1) => (getStatusCode (some e), w1)
      | (none, w1) => (201, w1)

/-! ## Broker messages (`scheduled_transaction_ucase.go`, `transaction_ucase.go`) -/

/-- Modelled from the spec: the function `producer.RunKafkaProducer`, whose package is not
among the sources. The spec says the core "publishes" one message onto a broker topic: the pair
of topic and message is appended to the log of published messages. -/
def RunKafkaProducer (log : List (String × String)) (topic message : String) :
    List (String × String) :=
  log ++ [(topic, message)]

/-- The message `fmt.Sprintf("%d|%s|%.2f|%s|%s|%s", ...)` built by AddTransactionToQueue. The
parameters are the renderings of the Go library: `fmtInt` for `%d`, `fmt2` for `%.2f` and
`fmtTime` for a `time.Time` under `%s`. -/
def scheduledWireMessage (fmtInt : Int → String) (fmt2 : ℚ → String) (fmtTime : Time → String)
    (st : ScheduledTransaction) : String :=
  fmtInt st.Id ++ "|" ++ st.Typ ++ "|" ++ fmt2 st.Amount ++ "|" ++ st.Account.AccountNo ++ "|"
    ++ st.Receiver.AccountNo ++ "|" ++ fmtTime st.CreatedAt

/-- The method `AddTransactionToQueue`: one message per record, in the order of the slice, on
the topic "scheduled_transactions"; the returned error is always nil. -/
def AddTransactionToQueue (fmtInt : Int → String) (fmt2 : ℚ → String) (fmtTime : Time → String)
    (log : List (String × String)) (transaction : List ScheduledTransaction) :
    Option Error × List (String × String) :=
  (none, transaction.foldl
    (fun l st => RunKafkaProducer l "scheduled_transactions"
      (scheduledWireMessage fmtInt fmt2 fmtTime st)) log)

/-- The duration `time.Minute`, in nanoseconds. -/
def Minute : Int := 60 * 1000000000

/-- The method `Time.Truncate` of the Go library: the instant rounded down to a multiple of
`d` counted from the zero time (instants are counts of nanoseconds from the zero time); for
`d ≤ 0` the instant is returned unchanged. -/
def Truncate (t : Time) (d : Int) : Time :=
  if d ≤ 0 then t else t - t % d

/-- The fetch time that `pollingUsecase.Polling` passes to PollScheduledTransaction at a tick
at which `time.Now()` reads `now`: `time.Now().Truncate(5*time.Minute)`. -/
def pollingFetchTime (now : Time) : Time :=
  Truncate now (5 * Minute)

/-! ## Fixtures for the worked examples -/

/-- A decimal reader that knows the few literals the examples cache; everything else reads
as 0, as `strconv.ParseFloat` does for the empty string. -/
def sampleParse (s : String) : ℚ :=
  if s = "50000" then 50000
  else if s = "5000" then 5000
  else if s = "2000" then 2000
  else if s = "1000" then 1000
  else if s = "20" then 20
  else 0

/-- A renderer for the running sum of the examples. -/
def sampleFormat (q : ℚ) : String :=
  if q = 1000 then "1000" else if q = 2000 then "2000" else "0"

/-- An account row with the given number, bank, status and balance. -/
def sampleAccount (no bank status : String) (balance : ℚ) : Account :=
  { AccountNo := no, Uuid := "u-" ++ no, Name := "", Email := "", Tel := "", Balance := balance,
    Bank := bank, Status := status, CreatedAt := some 0, UpdatedAt := some 0, IsClosed := 0 }

/-- A world with the given rows and cache in which no infrastructure call fails. -/
def sampleWorld (rows : List Account) (cache : String → RedisReply) : World :=
  { accounts := rows, redis := cache, queryErr := fun _ => false, execErr := fun _ => false,
    delErr := fun _ => false, createErr := false, sumErr := false, now := 1,
    transactions := [], outbox := [], scheduled := [], scheduledErr := false }

/-- A cache that holds only the global default daily limit, 50000. -/
def defaultCache (k : String) : RedisReply :=
  if k = "default_daily_limit" then .val "50000" else .Nil

/-- A request as bound from a body that names the two accounts, the type and the amount. -/
def sampleRequest (typ sender receiver : String) (amount : ℚ) : Transaction :=
  { Id := 0, Amount := amount, Typ := typ, Fee := 0, Total := 0, SubmittedAt := 0, CreatedAt := 0,
    Account := { sampleAccount sender "" "" 0 with Uuid := "", CreatedAt := none, UpdatedAt := none },
    Receiver := { sampleAccount receiver "" "" 0 with Uuid := "", CreatedAt := none, UpdatedAt := none } }

/-- Scenario A of the spec: sender S at bank X with 5000, receiver R at bank Y (holding 7), and
only the default daily limit cached. -/
def scenarioA : World :=
  sampleWorld [sampleAccount "S" "X" "active" 5000, sampleAccount "R" "Y" "active" 7] defaultCache

/-- Scenario B of the spec: one account holding 100. -/
def scenarioB : World :=
  sampleWorld [sampleAccount "B" "X" "active" 100] defaultCache

/-- A sender at bank X holding 1005 and a receiver at bank Y. -/
def scenarioFee : World :=
  sampleWorld [sampleAccount "S" "X" "active" 1005, sampleAccount "R" "Y" "active" 0] defaultCache

/-- A cache for account S: daily limit 2000, running sum 1000, per-transaction cap 1000,
and the global default 50000. -/
def limitCache (k : String) : RedisReply :=
  if k = "daily_limit_S" then .val "2000"
  else if k = "daily_transaction_S" then .val "1000"
  else if k = "limit_per_transaction: S" then .val "1000"
  else if k = "default_daily_limit" then .val "50000"
  else .Nil

/-- Sender S and receiver R, both holding 5000 at bank X, under the cache `limitCache`. -/
def scenarioLimit : World :=
  sampleWorld [sampleAccount "S" "X" "active" 5000, sampleAccount "R" "X" "active" 5000] limitCache

/-- A cache holding the minimum deposit 20 besides the default daily limit. -/
def depositCache (k : String) : RedisReply :=
  if k = "min_deposit_amount" then .val "20" else defaultCache k

/-- One account D holding 100, with the minimum deposit 20 cached. -/
def scenarioDeposit : World :=
  sampleWorld [sampleAccount "D" "X" "active" 100] depositCache

/-- Sender S holding 5000 and a receiver R whose status is inactive. -/
def scenarioInactive : World :=
  sampleWorld [sampleAccount "S" "X" "active" 5000, sampleAccount "R" "X" "inactive" 0]
    defaultCache

/-- The cache `limitCache` over an empty ledger all of whose reads fail. -/
def scenarioNoLedger : World :=
  { sampleWorld [] limitCache with queryErr := fun _ => true }

/-- Scenario A with a cache client that fails to delete the snapshot of R. -/
def scenarioDelFail : World :=
  { scenarioA with delErr := fun k => decide (k = "account_no: R") }

/-- Scenario A with a database that fails every UPDATE of account R. -/
def scenarioExecFail : World :=
  { scenarioA with execErr := fun k => decide (k = "R") }

/-- A decimal reader for the wire format: "1000.00" reads as 1000, anything else as
`sampleParse` reads it. -/
def wireParse (s : String) : ℚ :=
  if s = "1000.00" then 1000 else sampleParse s

/-- An integer reader that knows the id "1". -/
def sampleInt (s : String) : Int :=
  if s = "1" then 1 else 0

/-- A time reader that maps every text to the instant 0. -/
def sampleTime (_ : String) : Time := 0

/-- Scenario A with the scheduled transfer 1 (1000 from S to R) pending in the store. -/
def scenarioScheduled : World :=
  { scenarioA with
    scheduled := [{ zeroScheduledTransaction with
      Id := 1, Amount := 1000, Typ := "transfer",
      Account := { zeroAccount with AccountNo := "S" },
      Receiver := { zeroAccount with AccountNo := "R" }, Status := "pending" }] }

/-- The message of the scheduled transfer 1 as the poller encodes it. -/
def scheduledMessage : String := "1|transfer|1000.00|S|R|2023-10-01 10:00:00 +0700 +07"

/-- A renderer of `%d` that knows the id 1. -/
def sampleFmtInt (i : Int) : String :=
  if i = 1 then "1" else "0"

/-- A renderer of `%.2f` that knows the amounts of the examples. -/
def sampleFmt2 (q : ℚ) : String :=
  if q = 1000 then "1000.00" else if q = 3990 then "3990.00" else if q = 200 then "200.00"
  else if q = 4800 then "4800.00" else "0.00"

/-- A renderer of instants that tells the instants 100 and 200 apart. -/
def sampleFmtTime (t : Time) : String :=
  if t = 100 then "T100" else if t = 200 then "T200" else "T0"

/-- The scheduled transfer 1: 1000 from S to R, submitted at the instant 100 and created at the
instant 200. -/
def sampleScheduled : ScheduledTransaction :=
  { zeroScheduledTransaction with
    Id := 1, Amount := 1000, Typ := "transfer",
    Account := { zeroAccount with AccountNo := "S" },
    Receiver := { zeroAccount with AccountNo := "R" }, Status := "pending",
    SubmittedAt := 100, CreatedAt := 200 }

/-- A cache that holds no key at all. -/
def coldCache (_ : String) : RedisReply := .Nil

/-- Sender S and receiver R, both holding 5000 at bank X, over the empty cache. -/
def scenarioCold : World :=
  sampleWorld [sampleAccount "S" "X" "active" 5000, sampleAccount "R" "X" "active" 5000] coldCache

/-! ## Proof-side view of the ledger -/

/-- First row with the given account number, if any. -/
def firstRow (rows : List Account) (k : String) : Option Account :=
  (rows.filter (fun a => a.AccountNo = k)).head?

/-! ## Ledger lemmas -/

theorem firstRow_accountNo {rows : List Account} {k : String} {a : Account}
    (h : firstRow rows k = some a) : a.AccountNo = k := by
  induction rows with
  | nil => simp [firstRow] at h
  | cons x xs ih =>
    by_cases hx : x.AccountNo = k
    · simp [firstRow, List.filter_cons, hx] at h
      subst h
      exact hx
    · simp [firstRow, List.filter_cons, hx] at h
      exact ih (by simpa [firstRow] using h)

theorem firstRow_mem {rows : List Account} {k : String} {a : Account}
    (h : firstRow rows k = some a) : a ∈ rows := by
  induction rows with
  | nil => simp [firstRow] at h
  | cons x xs ih =>
    by_cases hx : x.AccountNo = k
    · simp [firstRow, List.filter_cons, hx] at h
      subst h
      exact List.mem_cons_self _ _
    · simp [firstRow, List.filter_cons, hx] at h
      exact List.mem_cons_of_mem _ (ih (by simpa [firstRow] using h))

theorem firstRow_updateRows_same (rows : List Account) (ar : Account) (k : String)
    (hk : k = ar.AccountNo) :
    firstRow (updateRows rows ar) k =
      (firstRow rows k).map
        (fun r => { r with Balance := ar.Balance, UpdatedAt := ar.UpdatedAt }) := by
  subst hk
  induction rows with
  | nil => simp [firstRow, updateRows]
  | cons x xs ih =>
    by_cases hx : x.AccountNo = ar.AccountNo
    · simp [firstRow, updateRows, List.filter_cons, hx]
    · simpa [firstRow, updateRows, List.filter_cons, hx] using ih

theorem firstRow_updateRows_other (rows : List Account) (ar : Account) (k : String)
    (hk : k ≠ ar.AccountNo) : firstRow (updateRows rows ar) k = firstRow rows k := by
  induction rows with
  | nil => simp [firstRow, updateRows]
  | cons x xs ih =>
    by_cases hx : x.AccountNo = ar.AccountNo
    · have hxk : ¬ x.AccountNo = k := fun h => hk (h ▸ hx)
      simpa [firstRow, updateRows, List.filter_cons, hx, hxk, hk, Ne.symm hk] using ih
    · by_cases hxk : x.AccountNo = k
      · subst hxk
        simp [firstRow, updateRows, List.filter_cons, hx]
      · simpa [firstRow, updateRows, List.filter_cons, hx, hxk] using ih

theorem GetAccountByAccountNo_eq (w : World) (k : String) :
    GetAccountByAccountNo w k =
      if w.queryErr k then .error (.driver "query")
      else match firstRow w.accounts k with
        | some a => .ok (some a)
        | none => .error .ErrNotFound := by
  unfold GetAccountByAccountNo fetchAccountFromDatabase getAllAccount firstRow
  by_cases hq : w.queryErr k
  · simp [hq]
  · simp only [hq]
    cases h : w.accounts.filter (fun a => a.AccountNo = k) <;> simp [h]

theorem GetAccountByAccountNo_ok {w : World} {k : String} {a : Option Account}
    (h : GetAccountByAccountNo w k = .ok a) :
    w.queryErr k = false ∧ ∃ r, a = some r ∧ firstRow w.accounts k = some r := by
  rw [GetAccountByAccountNo_eq] at h
  by_cases hq : w.queryErr k
  · simp [hq] at h
  · cases hf : firstRow w.accounts k with
    | none => simp [hq, hf] at h
    | some r =>
      simp [hq, hf] at h
      exact ⟨by simpa using hq, r, h.symm, rfl⟩

theorem repoUpdateAccount_ok {w : World} {ar : Account}
    (h : (repoUpdateAccount w ar).1 = none) :
    rowsAffected w.accounts ar = 1 ∧
    (repoUpdateAccount w ar).2 = { w with
      accounts := updateRows w.accounts ar,
      redis := fun k => if k = accountCacheKey ar.AccountNo then .Nil else w.redis k } := by
  unfold repoUpdateAccount at h ⊢
  split_ifs at h ⊢ with h1 h2 h3
  exact ⟨not_not.mp h2, rfl⟩

theorem UpdateAccount_ok {w w1 : World} {ar ar1 : Account}
    (h : UpdateAccount w ar = (none, w1, ar1)) :
    ar1 = { ar with UpdatedAt := some w.now } ∧
    rowsAffected w.accounts ar = 1 ∧
    w1 = { w with
      accounts := updateRows w.accounts ar1,
      redis := fun k => if k = accountCacheKey ar.AccountNo then .Nil else w.redis k } := by
  unfold UpdateAccount at h
  cases hu : ar.UpdatedAt with
  | none => simp [hu] at h
  | some t =>
    simp only [hu, Prod.mk.injEq] at h
    obtain ⟨h1, h2, h3⟩ := h
    obtain ⟨h4, h5⟩ := repoUpdateAccount_ok h1
    subst h3
    exact ⟨rfl, h4, by rw [← h2, h5]⟩

/-- The rows a call of `UpdateAccount` leaves: untouched, or updated to the new balance. -/
theorem UpdateAccount_accounts (w : World) (ar : Account) :
    (UpdateAccount w ar).2.1.accounts = w.accounts ∨
    (UpdateAccount w ar).2.1.accounts =
      updateRows w.accounts { ar with UpdatedAt := some w.now } := by
  unfold UpdateAccount
  cases hu : ar.UpdatedAt with
  | none => simp
  | some t =>
    simp only [repoUpdateAccount]
    split_ifs <;> simp

theorem createTransaction_ok {w w1 : World} {tr : Transaction}
    (h : createTransaction w tr = (none, w1)) :
    w1 = { w with transactions := w.transactions ++ [tr] } := by
  unfold createTransaction CreateTransaction at h
  split_ifs at h
  · simp at h
  · simp only [Prod.mk.injEq, true_and] at h
    exact h.symm

theorem SetTransferAmountPerDayInRedis_ok {pf : String → ℚ} {ff : ℚ → String} {w w1 : World}
    {tr : Transaction} (h : SetTransferAmountPerDayInRedis pf ff w tr = (none, w1)) :
    w1.accounts = w.accounts ∧ w1.queryErr = w.queryErr ∧ w1.transactions = w.transactions ∧
    w1.outbox = w.outbox := by
  unfold SetTransferAmountPerDayInRedis at h
  split_ifs at h
  · simp at h
  · simp only [Prod.mk.injEq, true_and] at h
    subst h
    exact ⟨rfl, rfl, rfl, rfl⟩

/-- What a successful `Transfer` has done. -/
theorem Transfer_ok_inv {pf : String → ℚ} {ff : ℚ → String} {w : World} {tr : Transaction}
    (h : (Transfer pf ff w tr).err = none) :
    ∃ acc res,
      GetAccountByAccountNo w tr.Account.AccountNo = .ok (some acc) ∧
      GetAccountByAccountNo w tr.Receiver.AccountNo = .ok (some res) ∧
      checkTransactionLimit pf w tr = true ∧
      res.Status ≠ "inactive" ∧
      checkTransferLimit pf w acc.AccountNo tr.Amount = none ∧
      ¬ acc.Balance < tr.Amount + calculateTransferFee acc res ∧
      (Transfer pf ff w tr).world.accounts =
        updateRows
          (updateRows w.accounts
            { acc with Balance := acc.Balance - (tr.Amount + calculateTransferFee acc res),
                       UpdatedAt := some w.now })
          { res with Balance := res.Balance + tr.Amount, UpdatedAt := some w.now } ∧
      (Transfer pf ff w tr).world.queryErr = w.queryErr ∧
      (Transfer pf ff w tr).world.transactions =
        w.transactions ++
          [{ tr with Fee := calculateTransferFee acc res,
                     Total := tr.Amount + calculateTransferFee acc res }] := by
  unfold Transfer at h ⊢
  by_cases hl : checkTransactionLimit pf w tr = false
  · simp [hl] at h
  · rw [if_neg hl] at h ⊢
    cases hs : GetAccountByAccountNo w tr.Account.AccountNo with
    | error e => simp [hs] at h
    | ok accPtr =>
      simp only [hs] at h ⊢
      cases hr : GetAccountByAccountNo w tr.Receiver.AccountNo with
      | error e => simp [hr] at h
      | ok resPtr =>
        cases resPtr with
        | none => simp [hr] at h
        | some res =>
          simp only [hr] at h ⊢
          by_cases hi : res.Status = "inactive"
          · simp [hi] at h
          · simp only [hi, if_false] at h ⊢
            cases accPtr with
            | none => simp at h
            | some acc =>
              simp only at h ⊢
              cases hc : checkTransferLimit pf w acc.AccountNo tr.Amount with
              | some e => simp [hc] at h
              | none =>
                simp only [hc] at h ⊢
                by_cases hb : acc.Balance < tr.Amount + calculateTransferFee acc res
                · simp [hb] at h
                · simp only [hb, if_false] at h ⊢
                  refine ⟨acc, res, rfl, rfl, by simpa using hl, hi, hc, hb, ?_⟩
                  generalize hu1 : UpdateAccount w
                    { acc with Balance := acc.Balance - (tr.Amount + calculateTransferFee acc res) }
                    = u1 at h ⊢
                  obtain ⟨e1, w1, a1⟩ := u1
                  cases e1 with
                  | some e => simp at h
                  | none =>
                    simp only at h ⊢
                    obtain ⟨ha1, -, hw1⟩ := UpdateAccount_ok hu1
                    generalize hu2 : UpdateAccount w1
                      { res with Balance := res.Balance + tr.Amount } = u2 at h ⊢
                    obtain ⟨e2, w2, a2⟩ := u2
                    cases e2 with
                    | some e => simp at h
                    | none =>
                      simp only at h ⊢
                      obtain ⟨ha2, -, hw2⟩ := UpdateAccount_ok hu2
                      generalize hu3 : createTransaction w2
                        { tr with Fee := calculateTransferFee acc res,
                                  Total := tr.Amount + calculateTransferFee acc res } = u3 at h ⊢
                      obtain ⟨e3, w3⟩ := u3
                      cases e3 with
                      | some e => simp at h
                      | none =>
                        simp only at h ⊢
                        have hw3 := createTransaction_ok hu3
                        generalize hu4 : SetTransferAmountPerDayInRedis pf ff w3
                          { tr with Fee := calculateTransferFee acc res,
                                    Total := tr.Amount + calculateTransferFee acc res } = u4 at h ⊢
                        obtain ⟨e4, w4⟩ := u4
                        cases e4 with
                        | some e => simp at h
                        | none =>
                          simp only at h ⊢
                          obtain ⟨h41, h42, h43, -⟩ := SetTransferAmountPerDayInRedis_ok hu4
                          rw [h41, h42, h43]
                          clear hu1 hu2 hu3 hu4 h41 h42 h43 h
                          subst hw3
                          subst hw2
                          subst ha2
                          subst hw1
                          subst ha1
                          exact ⟨rfl, rfl, rfl⟩

theorem updateRows_nonneg {rows : List Account} {ar : Account}
    (hrows : ∀ a ∈ rows, 0 ≤ a.Balance) (har : 0 ≤ ar.Balance) :
    ∀ a ∈ updateRows rows ar, 0 ≤ a.Balance := by
  intro a ha
  unfold updateRows at ha
  obtain ⟨r, hr, rfl⟩ := List.mem_map.mp ha
  split_ifs
  · exact har
  · exact hrows r hr

theorem UpdateAccount_nonneg (w : World) (ar : Account)
    (hw : ∀ a ∈ w.accounts, 0 ≤ a.Balance) (har : 0 ≤ ar.Balance) :
    ∀ a ∈ (UpdateAccount w ar).2.1.accounts, 0 ≤ a.Balance := by
  rcases UpdateAccount_accounts w ar with h | h
  · rw [h]; exact hw
  · rw [h]; exact updateRows_nonneg hw har

theorem createTransaction_accounts (w : World) (tr : Transaction) :
    (createTransaction w tr).2.accounts = w.accounts := by
  unfold createTransaction CreateTransaction
  split_ifs <;> rfl

theorem SetTransferAmountPerDayInRedis_accounts (pf : String → ℚ) (ff : ℚ → String) (w : World)
    (tr : Transaction) : (SetTransferAmountPerDayInRedis pf ff w tr).2.accounts = w.accounts := by
  unfold SetTransferAmountPerDayInRedis
  split_ifs <;> rfl

theorem Withdraw_nonneg (w : World) (tr : Transaction)
    (hw : ∀ a ∈ w.accounts, 0 ≤ a.Balance) :
    ∀ a ∈ (Withdraw w tr).world.accounts, 0 ≤ a.Balance := by
  unfold Withdraw
  split
  · exact hw
  · exact hw
  · rename_i acc hacc
    split
    · exact hw
    · rename_i hb
      have h1 := UpdateAccount_nonneg w { acc with Balance := acc.Balance - tr.Amount } hw
        (by simpa using le_of_not_lt hb)
      dsimp only
      split
      · rename_i e w1 x hu
        rw [hu] at h1
        exact h1
      · rename_i w1 acc2 hu
        rw [hu] at h1
        have h2 := createTransaction_accounts w1 tr
        split
        · rename_i e w2 hc
          rw [hc] at h2
          rw [show w2.accounts = w1.accounts from h2]
          exact h1
        · rename_i w2 hc
          rw [hc] at h2
          rw [show w2.accounts = w1.accounts from h2]
          exact h1

theorem loaded_nonneg {w : World} {k : String} {acc : Account}
    (hw : ∀ a ∈ w.accounts, 0 ≤ a.Balance)
    (h : GetAccountByAccountNo w k = .ok (some acc)) : 0 ≤ acc.Balance := by
  obtain ⟨-, r, hr, hf⟩ := GetAccountByAccountNo_ok h
  cases hr
  exact hw _ (firstRow_mem hf)

theorem Deposit_nonneg (pf : String → ℚ) (w : World) (tr : Transaction)
    (hw : ∀ a ∈ w.accounts, 0 ≤ a.Balance) (hamt : 0 ≤ tr.Amount) :
    ∀ a ∈ (Deposit pf w tr).world.accounts, 0 ≤ a.Balance := by
  unfold Deposit
  split
  · exact hw
  · rename_i accPtr hacc
    split
    · exact hw
    · exact hw
    · dsimp only
      split
      · exact hw
      · split
        · exact hw
        · rename_i acc
          have h1 := UpdateAccount_nonneg w { acc with Balance := acc.Balance + tr.Amount } hw
            (by simpa using add_nonneg (loaded_nonneg hw hacc) hamt)
          split
          · rename_i e w1 x hu
            rw [hu] at h1
            exact h1
          · rename_i w1 acc2 hu
            rw [hu] at h1
            have h2 := createTransaction_accounts w1 tr
            split
            · rename_i e w2 hc
              rw [hc] at h2
              rw [show w2.accounts = w1.accounts from h2]
              exact h1
            · rename_i w2 hc
              rw [hc] at h2
              rw [show w2.accounts = w1.accounts from h2]
              exact h1

theorem Transfer_nonneg (pf : String → ℚ) (ff : ℚ → String) (w : World) (tr : Transaction)
    (hw : ∀ a ∈ w.accounts, 0 ≤ a.Balance) (hamt : 0 ≤ tr.Amount) :
    ∀ a ∈ (Transfer pf ff w tr).world.accounts, 0 ≤ a.Balance := by
  unfold Transfer
  split
  · exact hw
  · split
    · exact hw
    · rename_i accPtr hacc
      split
      · exact hw
      · exact hw
      · rename_i res hres
        split
        · exact hw
        · split
          · exact hw
          · rename_i acc
            split
            · exact hw
            · dsimp only
              split
              · exact hw
              · rename_i hb
                have h1 := UpdateAccount_nonneg w
                  { acc with
                    Balance := acc.Balance - (tr.Amount + calculateTransferFee acc res) }
                  hw (by simpa using le_of_not_lt hb)
                split
                · rename_i e w1 x hu
                  rw [hu] at h1
                  exact h1
                · rename_i w1 acc2 hu
                  rw [hu] at h1
                  have h2 := UpdateAccount_nonneg w1
                    { res with Balance := res.Balance + tr.Amount }
                    h1 (by simpa using add_nonneg (loaded_nonneg hw hres) hamt)
                  split
                  · rename_i e w2 x hu2
                    rw [hu2] at h2
                    exact h2
                  · rename_i w2 res2 hu2
                    rw [hu2] at h2
                    split
                    · rename_i e w3 hc
                      have h3 := createTransaction_accounts w2
                        { tr with Fee := calculateTransferFee acc res,
                                  Total := tr.Amount + calculateTransferFee acc res }
                      rw [hc] at h3
                      rw [show w3.accounts = w2.accounts from h3]
                      exact h2
                    · rename_i w3 hc
                      have h3 := createTransaction_accounts w2
                        { tr with Fee := calculateTransferFee acc res,
                                  Total := tr.Amount + calculateTransferFee acc res }
                      rw [hc] at h3
                      split
                      · rename_i e w4 hs
                        have h4 := SetTransferAmountPerDayInRedis_accounts pf ff w3
                          { tr with Fee := calculateTransferFee acc res,
                                    Total := tr.Amount + calculateTransferFee acc res }
                        rw [hs] at h4
                        rw [show w4.accounts = w3.accounts from h4,
                          show w3.accounts = w2.accounts from h3]
                        exact h2
                      · rename_i w4 hs
                        have h4 := SetTransferAmountPerDayInRedis_accounts pf ff w3
                          { tr with Fee := calculateTransferFee acc res,
                                    Total := tr.Amount + calculateTransferFee acc res }
                        rw [hs] at h4
                        rw [show w4.accounts = w3.accounts from h4,
                          show w3.accounts = w2.accounts from h3]
                        exact h2

theorem Withdraw_overdraw {w : World} {tr : Transaction} {acc : Account}
    (hacc : GetAccountByAccountNo w tr.Account.AccountNo = .ok (some acc))
    (hlt : acc.Balance < tr.Amount) :
    Withdraw w tr = ⟨some .ErrInsufficientBalance, w, tr⟩ := by
  simp [Withdraw, hacc, hlt]

theorem Transfer_overdraw (pf : String → ℚ) (ff : ℚ → String) {w : World} {tr : Transaction}
    {acc res : Account}
    (hacc : GetAccountByAccountNo w tr.Account.AccountNo = .ok (some acc))
    (hres : GetAccountByAccountNo w tr.Receiver.AccountNo = .ok (some res))
    (hlt : acc.Balance < tr.Amount + calculateTransferFee acc res) :
    (Transfer pf ff w tr).world = w ∧
    ((Transfer pf ff w tr).err = some (.errorf "exceed limit per day") ∨
     (Transfer pf ff w tr).err = some .ErrAccDeleted ∨
     (Transfer pf ff w tr).err = some .ErrExceedLimitAmountPerTransaction ∨
     (Transfer pf ff w tr).err = some .ErrInsufficientBalance) ∧
    (checkTransactionLimit pf w tr = true → res.Status ≠ "inactive" →
      checkTransferLimit pf w acc.AccountNo tr.Amount = none →
      (Transfer pf ff w tr).err = some .ErrInsufficientBalance) := by
  unfold Transfer
  by_cases hl : checkTransactionLimit pf w tr = false
  · simp [hl]
  · by_cases hi : res.Status = "inactive"
    · simp [hl, hacc, hres, hi]
    · cases hc : checkTransferLimit pf w acc.AccountNo tr.Amount with
      | none => simp [hl, hacc, hres, hi, hc, hlt]
      | some e =>
        have he : e = .ErrExceedLimitAmountPerTransaction := by
          unfold checkTransferLimit at hc
          dsimp only at hc
          split_ifs at hc
          simpa using hc.symm
        simp [hl, hacc, hres, hi, hc, he]

theorem GetDailyLimit_err (pf : String → ℚ) (w : World) (account_no : String) :
    (GetDailyLimit pf w account_no).2 = none := by
  unfold GetDailyLimit
  split
  · split <;> rfl
  · rfl
  · rfl

/-! ## Claims -/

/-- C2, as stated, fails: in scenario A every balance is non-negative, yet a Transfer of amount
-100 from S to R commits (no error, so no InsufficientBalance) and leaves R at -93. -/
theorem nonnegativity_counterexample :
    scenarioA.accounts.map (fun a => a.Balance) = [5000, 7] ∧
    (Transfer sampleParse sampleFormat scenarioA
      (sampleRequest "transfer" "S" "R" (-100))).err = none ∧
    (Transfer sampleParse sampleFormat scenarioA
      (sampleRequest "transfer" "S" "R" (-100))).world.accounts.map (fun a => a.Balance)
        = [5090, -93] := by
  refine ⟨?_, ?_, ?_⟩
  · simp [scenarioA, sampleWorld, sampleAccount]
  · simp [scenarioA, Transfer, Withdraw, Deposit, checkTransactionLimit, GetDailyLimit, GetSumDailyTransaction,
    GetAccountByAccountNo, fetchAccountFromDatabase, getAllAccount, checkTransferLimit,
    calculateTransferFee, UpdateAccount, repoUpdateAccount, rowsAffected, updateRows,
    createTransaction, CreateTransaction, SetTransferAmountPerDayInRedis, accountCacheKey,
    sampleWorld, sampleAccount, sampleRequest, sampleParse, sampleFormat, defaultCache, limitCache]
    norm_num
  · simp [scenarioA, Transfer, Withdraw, Deposit, checkTransactionLimit, GetDailyLimit, GetSumDailyTransaction,
    GetAccountByAccountNo, fetchAccountFromDatabase, getAllAccount, checkTransferLimit,
    calculateTransferFee, UpdateAccount, repoUpdateAccount, rowsAffected, updateRows,
    createTransaction, CreateTransaction, SetTransferAmountPerDayInRedis, accountCacheKey,
    sampleWorld, sampleAccount, sampleRequest, sampleParse, sampleFormat, defaultCache, limitCache]
    norm_num

/-- C2, amended. From a ledger whose balances are all non-negative: Withdraw never leaves a
negative balance; Deposit and Transfer never leave one when the amount is non-negative; a
Withdraw whose amount exceeds the balance fails with InsufficientBalance and leaves the world
untouched; a Transfer whose amount plus fee exceeds the sender's balance fails and leaves the
world untouched, the error being InsufficientBalance once the limit and receiver checks pass. -/
theorem nonnegativity_preserved (pf : String → ℚ) (ff : ℚ → String) (w : World)
    (tr : Transaction) (hw : ∀ a ∈ w.accounts, 0 ≤ a.Balance) :
    (∀ a ∈ (Withdraw w tr).world.accounts, 0 ≤ a.Balance) ∧
    (0 ≤ tr.Amount → ∀ a ∈ (Deposit pf w tr).world.accounts, 0 ≤ a.Balance) ∧
    (0 ≤ tr.Amount → ∀ a ∈ (Transfer pf ff w tr).world.accounts, 0 ≤ a.Balance) ∧
    (∀ acc, GetAccountByAccountNo w tr.Account.AccountNo = .ok (some acc) →
      acc.Balance < tr.Amount →
      (Withdraw w tr).err = some .ErrInsufficientBalance ∧ (Withdraw w tr).world = w) ∧
    (∀ acc res, GetAccountByAccountNo w tr.Account.AccountNo = .ok (some acc) →
      GetAccountByAccountNo w tr.Receiver.AccountNo = .ok (some res) →
      acc.Balance < tr.Amount + calculateTransferFee acc res →
      (Transfer pf ff w tr).err ≠ none ∧ (Transfer pf ff w tr).world = w ∧
      (checkTransactionLimit pf w tr = true → res.Status ≠ "inactive" →
        checkTransferLimit pf w acc.AccountNo tr.Amount = none →
        (Transfer pf ff w tr).err = some .ErrInsufficientBalance)) := by
  refine ⟨Withdraw_nonneg w tr hw, Deposit_nonneg pf w tr hw, Transfer_nonneg pf ff w tr hw, ?_, ?_⟩
  · intro acc hacc hlt
    rw [Withdraw_overdraw hacc hlt]
    exact ⟨rfl, rfl⟩
  · intro acc res hacc hres hlt
    obtain ⟨h1, h2, h3⟩ := Transfer_overdraw pf ff hacc hres hlt
    refine ⟨?_, h1, h3⟩
    rcases h2 with h | h | h | h <;> simp [h]

/-- The amended C2 at scenario A with a request for 6000 from S to R: balances start
non-negative, stay non-negative, and the overdraw is refused with InsufficientBalance. -/
theorem nonnegativity_preserved_witness :
    (∀ a ∈ scenarioA.accounts, 0 ≤ a.Balance) ∧
    (∀ a ∈ (Transfer sampleParse sampleFormat scenarioA
      (sampleRequest "transfer" "S" "R" 6000)).world.accounts, 0 ≤ a.Balance) ∧
    (Transfer sampleParse sampleFormat scenarioA
      (sampleRequest "transfer" "S" "R" 6000)).err = some .ErrInsufficientBalance :=
  have hw : ∀ a ∈ scenarioA.accounts, 0 ≤ a.Balance := by
    simp [scenarioA, sampleWorld, sampleAccount]
  have hamt : 0 ≤ (sampleRequest "transfer" "S" "R" 6000).Amount := by
    simp [sampleRequest]
  have hthm := nonnegativity_preserved sampleParse sampleFormat scenarioA
    (sampleRequest "transfer" "S" "R" 6000) hw
  ⟨hw, hthm.2.2.1 hamt,
    (hthm.2.2.2.2 (sampleAccount "S" "X" "active" 5000) (sampleAccount "R" "Y" "active" 7)
      (by simp [scenarioA, Transfer, Withdraw, Deposit, checkTransactionLimit, GetDailyLimit, GetSumDailyTransaction,
    GetAccountByAccountNo, fetchAccountFromDatabase, getAllAccount, checkTransferLimit,
    calculateTransferFee, UpdateAccount, repoUpdateAccount, rowsAffected, updateRows,
    createTransaction, CreateTransaction, SetTransferAmountPerDayInRedis, accountCacheKey,
    sampleWorld, sampleAccount, sampleRequest, sampleParse, sampleFormat, defaultCache, limitCache])
      (by simp [scenarioA, Transfer, Withdraw, Deposit, checkTransactionLimit, GetDailyLimit, GetSumDailyTransaction,
    GetAccountByAccountNo, fetchAccountFromDatabase, getAllAccount, checkTransferLimit,
    calculateTransferFee, UpdateAccount, repoUpdateAccount, rowsAffected, updateRows,
    createTransaction, CreateTransaction, SetTransferAmountPerDayInRedis, accountCacheKey,
    sampleWorld, sampleAccount, sampleRequest, sampleParse, sampleFormat, defaultCache, limitCache])
      (by
        simp [sampleRequest, sampleAccount, calculateTransferFee]
        norm_num)).2.2
      (by
        simp [scenarioA, Transfer, Withdraw, Deposit, checkTransactionLimit, GetDailyLimit, GetSumDailyTransaction,
    GetAccountByAccountNo, fetchAccountFromDatabase, getAllAccount, checkTransferLimit,
    calculateTransferFee, UpdateAccount, repoUpdateAccount, rowsAffected, updateRows,
    createTransaction, CreateTransaction, SetTransferAmountPerDayInRedis, accountCacheKey,
    sampleWorld, sampleAccount, sampleRequest, sampleParse, sampleFormat, defaultCache, limitCache]
        norm_num)
      (by simp [sampleAccount])
      (by simp [scenarioA, Transfer, Withdraw, Deposit, checkTransactionLimit, GetDailyLimit, GetSumDailyTransaction,
    GetAccountByAccountNo, fetchAccountFromDatabase, getAllAccount, checkTransferLimit,
    calculateTransferFee, UpdateAccount, repoUpdateAccount, rowsAffected, updateRows,
    createTransaction, CreateTransaction, SetTransferAmountPerDayInRedis, accountCacheKey,
    sampleWorld, sampleAccount, sampleRequest, sampleParse, sampleFormat, defaultCache, limitCache])⟩

/-- C3. Fee policy: calculateTransferFee is 10 when the two Bank fields differ and 0 when they
are equal, so it is nonzero exactly when they differ, and any two pairs of accounts that agree
on the two Bank fields get the same fee. -/
theorem fee_policy (acc res_acc : Account) :
    (acc.Bank ≠ res_acc.Bank → calculateTransferFee acc res_acc = 10) ∧
    (acc.Bank = res_acc.Bank → calculateTransferFee acc res_acc = 0) ∧
    (calculateTransferFee acc res_acc ≠ 0 ↔ acc.Bank ≠ res_acc.Bank) ∧
    (∀ acc1 res_acc1 : Account, acc1.Bank = acc.Bank → res_acc1.Bank = res_acc.Bank →
      calculateTransferFee acc1 res_acc1 = calculateTransferFee acc res_acc) := by
  refine ⟨?_, ?_, ?_, ?_⟩
  · intro h
    simp [calculateTransferFee, h]
  · intro h
    simp [calculateTransferFee, h]
  · by_cases h : acc.Bank = res_acc.Bank <;> simp [calculateTransferFee, h]
  · intro acc1 res_acc1 h1 h2
    simp [calculateTransferFee, h1, h2]

/-- The fee policy at two accounts of banks X and Y, and at an unrelated pair with the same
banks: the fee is 10 in both cases. -/
theorem fee_policy_witness :
    (sampleAccount "S" "X" "active" 5000).Bank ≠ (sampleAccount "R" "Y" "active" 7).Bank ∧
    calculateTransferFee (sampleAccount "S" "X" "active" 5000) (sampleAccount "R" "Y" "active" 7)
      = 10 ∧
    calculateTransferFee (sampleAccount "P" "X" "inactive" 1) (sampleAccount "Q" "Y" "fraud" 2)
      = calculateTransferFee (sampleAccount "S" "X" "active" 5000)
          (sampleAccount "R" "Y" "active" 7) :=
  have h : (sampleAccount "S" "X" "active" 5000).Bank ≠ (sampleAccount "R" "Y" "active" 7).Bank := by
    simp [sampleAccount]
  ⟨h,
    (fee_policy (sampleAccount "S" "X" "active" 5000) (sampleAccount "R" "Y" "active" 7)).1 h,
    (fee_policy (sampleAccount "S" "X" "active" 5000) (sampleAccount "R" "Y" "active" 7)).2.2.2
      (sampleAccount "P" "X" "inactive" 1) (sampleAccount "Q" "Y" "fraud" 2) rfl rfl⟩

/-- A successful Transfer hands the store a record whose total is its amount plus its fee. -/
theorem Transfer_record_total (pf : String → ℚ) (ff : ℚ → String) (w : World) (tr : Transaction)
    (hok : (Transfer pf ff w tr).err = none) :
    ∃ rec, (Transfer pf ff w tr).world.transactions = w.transactions ++ [rec] ∧
      rec.Total = rec.Amount + rec.Fee := by
  obtain ⟨acc, res, -, -, -, -, -, -, -, -, ht⟩ := Transfer_ok_inv hok
  exact ⟨_, ht, rfl⟩

/-- C4 fails for Withdraw: in scenario A a request to withdraw 200 from S, sent without fee and
total (both 0), succeeds, and the one record handed to the store has amount 200, fee 0 and
total 0, which is not amount plus fee. -/
theorem withdraw_record_total_mismatch :
    (Withdraw scenarioA (sampleRequest "withdraw" "S" "" 200)).err = none ∧
    (Withdraw scenarioA (sampleRequest "withdraw" "S" "" 200)).world.transactions.map
      (fun t => (t.Amount, t.Fee, t.Total)) = [(200, 0, 0)] ∧
    ¬ ∀ t ∈ (Withdraw scenarioA (sampleRequest "withdraw" "S" "" 200)).world.transactions,
      t.Total = t.Amount + t.Fee := by
  refine ⟨?_, ?_, ?_⟩
  · simp [scenarioA, Transfer, Withdraw, Deposit, checkTransactionLimit, GetDailyLimit, GetSumDailyTransaction,
    GetAccountByAccountNo, fetchAccountFromDatabase, getAllAccount, checkTransferLimit,
    calculateTransferFee, UpdateAccount, repoUpdateAccount, rowsAffected, updateRows,
    createTransaction, CreateTransaction, SetTransferAmountPerDayInRedis, accountCacheKey,
    sampleWorld, sampleAccount, sampleRequest, sampleParse, sampleFormat, defaultCache, limitCache]
    norm_num
  · simp [scenarioA, Transfer, Withdraw, Deposit, checkTransactionLimit, GetDailyLimit, GetSumDailyTransaction,
    GetAccountByAccountNo, fetchAccountFromDatabase, getAllAccount, checkTransferLimit,
    calculateTransferFee, UpdateAccount, repoUpdateAccount, rowsAffected, updateRows,
    createTransaction, CreateTransaction, SetTransferAmountPerDayInRedis, accountCacheKey,
    sampleWorld, sampleAccount, sampleRequest, sampleParse, sampleFormat, defaultCache, limitCache]
    norm_num
  · simp [scenarioA, Transfer, Withdraw, Deposit, checkTransactionLimit, GetDailyLimit, GetSumDailyTransaction,
    GetAccountByAccountNo, fetchAccountFromDatabase, getAllAccount, checkTransferLimit,
    calculateTransferFee, UpdateAccount, repoUpdateAccount, rowsAffected, updateRows,
    createTransaction, CreateTransaction, SetTransferAmountPerDayInRedis, accountCacheKey,
    sampleWorld, sampleAccount, sampleRequest, sampleParse, sampleFormat, defaultCache, limitCache]
    norm_num

/-- C5. Withdraw with balance below the amount: for an account the ledger returns, the call
fails with InsufficientBalance, the world is untouched, so the ledger still returns the same
account, no record has been handed to the store and no notification has been dispatched. -/
theorem withdraw_insufficient_balance (w : World) (tr : Transaction) (acc : Account)
    (hacc : GetAccountByAccountNo w tr.Account.AccountNo = .ok (some acc))
    (hlt : acc.Balance < tr.Amount) :
    (Withdraw w tr).err = some .ErrInsufficientBalance ∧
    (Withdraw w tr).world = w ∧
    GetAccountByAccountNo (Withdraw w tr).world tr.Account.AccountNo = .ok (some acc) ∧
    (Withdraw w tr).world.transactions = w.transactions ∧
    (Withdraw w tr).world.outbox = w.outbox := by
  rw [Withdraw_overdraw hacc hlt]
  exact ⟨rfl, rfl, hacc, rfl, rfl⟩

/-- Scenario B evaluated: withdrawing 200 from a balance of 100 fails with InsufficientBalance
and the balance remains 100, with no record and no notification. -/
theorem withdraw_insufficient_balance_witness :
    GetAccountByAccountNo scenarioB (sampleRequest "withdraw" "B" "" 200).Account.AccountNo
      = .ok (some (sampleAccount "B" "X" "active" 100)) ∧
    (sampleAccount "B" "X" "active" 100).Balance < (sampleRequest "withdraw" "B" "" 200).Amount ∧
    (Withdraw scenarioB (sampleRequest "withdraw" "B" "" 200)).err
      = some .ErrInsufficientBalance ∧
    (Withdraw scenarioB (sampleRequest "withdraw" "B" "" 200)).world.accounts.map
      (fun a => a.Balance) = [100] ∧
    (Withdraw scenarioB (sampleRequest "withdraw" "B" "" 200)).world.transactions = [] ∧
    (Withdraw scenarioB (sampleRequest "withdraw" "B" "" 200)).world.outbox = [] :=
  have h1 : GetAccountByAccountNo scenarioB (sampleRequest "withdraw" "B" "" 200).Account.AccountNo
      = .ok (some (sampleAccount "B" "X" "active" 100)) := by
    simp [scenarioB, Transfer, Withdraw, Deposit, checkTransactionLimit, GetDailyLimit, GetSumDailyTransaction,
    GetAccountByAccountNo, fetchAccountFromDatabase, getAllAccount, checkTransferLimit,
    calculateTransferFee, UpdateAccount, repoUpdateAccount, rowsAffected, updateRows,
    createTransaction, CreateTransaction, SetTransferAmountPerDayInRedis, accountCacheKey,
    sampleWorld, sampleAccount, sampleRequest, sampleParse, sampleFormat, defaultCache, limitCache]
  have h2 : (sampleAccount "B" "X" "active" 100).Balance
      < (sampleRequest "withdraw" "B" "" 200).Amount := by
    simp [sampleAccount, sampleRequest]
    norm_num
  have h := withdraw_insufficient_balance scenarioB (sampleRequest "withdraw" "B" "" 200)
    (sampleAccount "B" "X" "active" 100) h1 h2
  ⟨h1, h2, h.1, by rw [h.2.1]; simp [scenarioB, sampleWorld, sampleAccount],
    by rw [h.2.2.2.1]; rfl, by rw [h.2.2.2.2]; rfl⟩

/-- C6. Transfer with balance below amount plus fee: when the daily check passes, both accounts
load, the receiver is not inactive and the per-transaction check passes, the call fails with
InsufficientBalance and the world is untouched: the ledger returns both accounts as before, no
record is handed to the store and the cached running sum is as it was. -/
theorem transfer_insufficient_balance (pf : String → ℚ) (ff : ℚ → String) (w : World)
    (tr : Transaction) (acc res : Account)
    (hlimit : checkTransactionLimit pf w tr = true)
    (hacc : GetAccountByAccountNo w tr.Account.AccountNo = .ok (some acc))
    (hres : GetAccountByAccountNo w tr.Receiver.AccountNo = .ok (some res))
    (hactive : res.Status ≠ "inactive")
    (hcap : checkTransferLimit pf w acc.AccountNo tr.Amount = none)
    (hlt : acc.Balance < tr.Amount + calculateTransferFee acc res) :
    (Transfer pf ff w tr).err = some .ErrInsufficientBalance ∧
    (Transfer pf ff w tr).world = w ∧
    GetAccountByAccountNo (Transfer pf ff w tr).world tr.Account.AccountNo = .ok (some acc) ∧
    GetAccountByAccountNo (Transfer pf ff w tr).world tr.Receiver.AccountNo = .ok (some res) ∧
    (Transfer pf ff w tr).world.transactions = w.transactions ∧
    GetSumDailyTransaction pf (Transfer pf ff w tr).world tr.Account.AccountNo
      = GetSumDailyTransaction pf w tr.Account.AccountNo := by
  obtain ⟨h1, -, h3⟩ := Transfer_overdraw pf ff hacc hres hlt
  refine ⟨h3 hlimit hactive hcap, h1, ?_, ?_, ?_, ?_⟩ <;> rw [h1]
  · exact hacc
  · exact hres

/-- A sender holding 1005 at bank X asks to send 1000 to bank Y: the balance covers the amount
but not the amount plus the fee of 10, and the Transfer is refused with balances unchanged. -/
theorem transfer_insufficient_balance_witness :
    (sampleAccount "S" "X" "active" 1005).Balance ≥ (sampleRequest "transfer" "S" "R" 1000).Amount ∧
    (Transfer sampleParse sampleFormat scenarioFee (sampleRequest "transfer" "S" "R" 1000)).err
      = some .ErrInsufficientBalance ∧
    (Transfer sampleParse sampleFormat scenarioFee
      (sampleRequest "transfer" "S" "R" 1000)).world.accounts.map (fun a => a.Balance)
      = [1005, 0] :=
  have h := transfer_insufficient_balance sampleParse sampleFormat scenarioFee
    (sampleRequest "transfer" "S" "R" 1000)
    (sampleAccount "S" "X" "active" 1005) (sampleAccount "R" "Y" "active" 0)
    (by
      simp [scenarioFee, Transfer, Withdraw, Deposit, checkTransactionLimit, GetDailyLimit, GetSumDailyTransaction,
    GetAccountByAccountNo, fetchAccountFromDatabase, getAllAccount, checkTransferLimit,
    calculateTransferFee, UpdateAccount, repoUpdateAccount, rowsAffected, updateRows,
    createTransaction, CreateTransaction, SetTransferAmountPerDayInRedis, accountCacheKey,
    sampleWorld, sampleAccount, sampleRequest, sampleParse, sampleFormat, defaultCache, limitCache]
      norm_num)
    (by simp [scenarioFee, Transfer, Withdraw, Deposit, checkTransactionLimit, GetDailyLimit, GetSumDailyTransaction,
    GetAccountByAccountNo, fetchAccountFromDatabase, getAllAccount, checkTransferLimit,
    calculateTransferFee, UpdateAccount, repoUpdateAccount, rowsAffected, updateRows,
    createTransaction, CreateTransaction, SetTransferAmountPerDayInRedis, accountCacheKey,
    sampleWorld, sampleAccount, sampleRequest, sampleParse, sampleFormat, defaultCache, limitCache])
    (by simp [scenarioFee, Transfer, Withdraw, Deposit, checkTransactionLimit, GetDailyLimit, GetSumDailyTransaction,
    GetAccountByAccountNo, fetchAccountFromDatabase, getAllAccount, checkTransferLimit,
    calculateTransferFee, UpdateAccount, repoUpdateAccount, rowsAffected, updateRows,
    createTransaction, CreateTransaction, SetTransferAmountPerDayInRedis, accountCacheKey,
    sampleWorld, sampleAccount, sampleRequest, sampleParse, sampleFormat, defaultCache, limitCache])
    (by simp [sampleAccount])
    (by simp [scenarioFee, Transfer, Withdraw, Deposit, checkTransactionLimit, GetDailyLimit, GetSumDailyTransaction,
    GetAccountByAccountNo, fetchAccountFromDatabase, getAllAccount, checkTransferLimit,
    calculateTransferFee, UpdateAccount, repoUpdateAccount, rowsAffected, updateRows,
    createTransaction, CreateTransaction, SetTransferAmountPerDayInRedis, accountCacheKey,
    sampleWorld, sampleAccount, sampleRequest, sampleParse, sampleFormat, defaultCache, limitCache])
    (by
      simp [sampleRequest, sampleAccount, calculateTransferFee]
      norm_num)
  ⟨by
      simp [sampleRequest, sampleAccount]
      norm_num,
    h.1, by rw [h.2.1]; simp [scenarioFee, sampleWorld, sampleAccount]⟩

/-- C7, as stated, fails: the orchestrator's Transfer accepts a request whose sender and
receiver are the same account (S to S, 1000: no error, and the stored balance rises from 5000
to 6000) and a request with amount 0 (S to R: no error, and S is charged the fee of 10). -/
theorem transfer_unvalidated_counterexample :
    (sampleRequest "transfer" "S" "S" 1000).Account.AccountNo
      = (sampleRequest "transfer" "S" "S" 1000).Receiver.AccountNo ∧
    (Transfer sampleParse sampleFormat scenarioA (sampleRequest "transfer" "S" "S" 1000)).err
      = none ∧
    (Transfer sampleParse sampleFormat scenarioA
      (sampleRequest "transfer" "S" "S" 1000)).world.accounts.map (fun a => a.Balance)
      = [6000, 7] ∧
    (sampleRequest "transfer" "S" "R" 0).Amount ≤ 0 ∧
    (Transfer sampleParse sampleFormat scenarioA (sampleRequest "transfer" "S" "R" 0)).err
      = none ∧
    (Transfer sampleParse sampleFormat scenarioA
      (sampleRequest "transfer" "S" "R" 0)).world.accounts.map (fun a => a.Balance)
      = [4990, 7] := by
  refine ⟨rfl, ?_, ?_, ?_, ?_, ?_⟩
  · simp [scenarioA, Transfer, Withdraw, Deposit, checkTransactionLimit, GetDailyLimit, GetSumDailyTransaction,
    GetAccountByAccountNo, fetchAccountFromDatabase, getAllAccount, checkTransferLimit,
    calculateTransferFee, UpdateAccount, repoUpdateAccount, rowsAffected, updateRows,
    createTransaction, CreateTransaction, SetTransferAmountPerDayInRedis, accountCacheKey,
    sampleWorld, sampleAccount, sampleRequest, sampleParse, sampleFormat, defaultCache, limitCache]
    norm_num
  · simp [scenarioA, Transfer, Withdraw, Deposit, checkTransactionLimit, GetDailyLimit, GetSumDailyTransaction,
    GetAccountByAccountNo, fetchAccountFromDatabase, getAllAccount, checkTransferLimit,
    calculateTransferFee, UpdateAccount, repoUpdateAccount, rowsAffected, updateRows,
    createTransaction, CreateTransaction, SetTransferAmountPerDayInRedis, accountCacheKey,
    sampleWorld, sampleAccount, sampleRequest, sampleParse, sampleFormat, defaultCache, limitCache]
    norm_num
  · simp [sampleRequest]
  · simp [scenarioA, Transfer, Withdraw, Deposit, checkTransactionLimit, GetDailyLimit, GetSumDailyTransaction,
    GetAccountByAccountNo, fetchAccountFromDatabase, getAllAccount, checkTransferLimit,
    calculateTransferFee, UpdateAccount, repoUpdateAccount, rowsAffected, updateRows,
    createTransaction, CreateTransaction, SetTransferAmountPerDayInRedis, accountCacheKey,
    sampleWorld, sampleAccount, sampleRequest, sampleParse, sampleFormat, defaultCache, limitCache]
    norm_num
  · simp [scenarioA, Transfer, Withdraw, Deposit, checkTransactionLimit, GetDailyLimit, GetSumDailyTransaction,
    GetAccountByAccountNo, fetchAccountFromDatabase, getAllAccount, checkTransferLimit,
    calculateTransferFee, UpdateAccount, repoUpdateAccount, rowsAffected, updateRows,
    createTransaction, CreateTransaction, SetTransferAmountPerDayInRedis, accountCacheKey,
    sampleWorld, sampleAccount, sampleRequest, sampleParse, sampleFormat, defaultCache, limitCache]
    norm_num

/-- C7, amended. The HTTP handler of the transfer endpoint answers 400 and leaves the world
untouched (nothing is read from or written to the ledger, the orchestrator is not invoked) for
every bound request whose sender account number equals the receiver's or whose amount is ≤ 0. -/
theorem handler_rejects_invalid_transfer (pf : String → ℚ) (ff : ℚ → String) (w : World)
    (tr : Transaction)
    (h : tr.Account.AccountNo = tr.Receiver.AccountNo ∨ tr.Amount ≤ 0) :
    TransactionHandler.Transfer pf ff w (some tr) = (400, w) := by
  unfold TransactionHandler.Transfer
  by_cases ht : tr.Typ ≠ "transfer"
  · simp [ht]
  · by_cases hs : tr.Account.AccountNo = tr.Receiver.AccountNo
    · simp [ht, hs]
    · rcases h with h | h
      · exact absurd h hs
      · simp [ht, hs, h]

/-- The handler at the two requests of the counterexample: both are answered 400 and the
ledger of scenario A is left as it was. -/
theorem handler_rejects_invalid_transfer_witness :
    TransactionHandler.Transfer sampleParse sampleFormat scenarioA
      (some (sampleRequest "transfer" "S" "S" 1000)) = (400, scenarioA) ∧
    TransactionHandler.Transfer sampleParse sampleFormat scenarioA
      (some (sampleRequest "transfer" "S" "R" 0)) = (400, scenarioA) :=
  ⟨handler_rejects_invalid_transfer sampleParse sampleFormat scenarioA
      (sampleRequest "transfer" "S" "S" 1000) (Or.inl rfl),
    handler_rejects_invalid_transfer sampleParse sampleFormat scenarioA
      (sampleRequest "transfer" "S" "R" 0) (Or.inr (by simp [sampleRequest]))⟩

/-- C9. Per-transaction limit, for a parser that reads both "0" and the empty string as 0 (as
strconv.ParseFloat does): checkTransferLimit returns ErrExceedLimitAmountPerTransaction exactly
when a cap is cached under the account's key, the cap read from it is not 0 and the amount is
above the cap; in every other case it returns no error. -/
theorem per_transaction_limit (pf : String → ℚ) (hzero : pf "0" = 0) (hempty : pf "" = 0)
    (w : World) (AccountNo : String) (amount : ℚ) :
    (checkTransferLimit pf w AccountNo amount = some .ErrExceedLimitAmountPerTransaction ↔
      ∃ cap, w.redis ("limit_per_transaction: " ++ AccountNo) = .val cap ∧
        pf cap ≠ 0 ∧ amount > pf cap) ∧
    (checkTransferLimit pf w AccountNo amount ≠ some .ErrExceedLimitAmountPerTransaction →
      checkTransferLimit pf w AccountNo amount = none) := by
  unfold checkTransferLimit
  cases hr : w.redis ("limit_per_transaction: " ++ AccountNo) with
  | val s =>
    by_cases hc : pf s ≠ 0 ∧ amount > pf s
    · simp [hc]
    · simp only [hc, if_false]
      simp
      intro h1
      exact le_of_not_lt (fun h2 => hc ⟨h1, h2⟩)
  | Nil => simp [hzero]
  | fail => simp [hempty]

/-- With a cap of 1000 cached for S: an amount of 1000.01 is refused, an amount equal to the
cap passes, and for R, which has no cap cached, an amount of 999999 passes. -/
theorem per_transaction_limit_witness :
    sampleParse "0" = 0 ∧ sampleParse "" = 0 ∧
    checkTransferLimit sampleParse scenarioLimit "S" (100001 / 100)
      = some .ErrExceedLimitAmountPerTransaction ∧
    checkTransferLimit sampleParse scenarioLimit "S" 1000 = none ∧
    checkTransferLimit sampleParse scenarioLimit "R" 999999 = none :=
  have h0 : sampleParse "0" = 0 := by simp [sampleParse]
  have he : sampleParse "" = 0 := by simp [sampleParse]
  ⟨h0, he,
    (per_transaction_limit sampleParse h0 he scenarioLimit "S" (100001 / 100)).1.mpr
      ⟨"1000", by simp [scenarioLimit, sampleWorld, limitCache], by simp [sampleParse],
        by
          simp [sampleParse]
          norm_num⟩,
    (per_transaction_limit sampleParse h0 he scenarioLimit "S" 1000).2 (by
      simp [scenarioLimit, Transfer, Withdraw, Deposit, checkTransactionLimit, GetDailyLimit, GetSumDailyTransaction,
    GetAccountByAccountNo, fetchAccountFromDatabase, getAllAccount, checkTransferLimit,
    calculateTransferFee, UpdateAccount, repoUpdateAccount, rowsAffected, updateRows,
    createTransaction, CreateTransaction, SetTransferAmountPerDayInRedis, accountCacheKey,
    sampleWorld, sampleAccount, sampleRequest, sampleParse, sampleFormat, defaultCache, limitCache]),
    (per_transaction_limit sampleParse h0 he scenarioLimit "R" 999999).2 (by
      simp [scenarioLimit, Transfer, Withdraw, Deposit, checkTransactionLimit, GetDailyLimit, GetSumDailyTransaction,
    GetAccountByAccountNo, fetchAccountFromDatabase, getAllAccount, checkTransferLimit,
    calculateTransferFee, UpdateAccount, repoUpdateAccount, rowsAffected, updateRows,
    createTransaction, CreateTransaction, SetTransferAmountPerDayInRedis, accountCacheKey,
    sampleWorld, sampleAccount, sampleRequest, sampleParse, sampleFormat, defaultCache, limitCache])⟩

/-- C10. GetDailyLimit returns, with no error, the number read from the value cached under the
account's own key when that key is present, and the number read from the value cached under
the global default key when the account's key is absent. -/
theorem daily_limit_lookup (pf : String → ℚ) (w : World) (account_no : String) :
    (∀ v, w.redis ("daily_limit_" ++ account_no) = .val v →
      GetDailyLimit pf w account_no = (pf v, none)) ∧
    (w.redis ("daily_limit_" ++ account_no) = .Nil →
      ∀ v, w.redis "default_daily_limit" = .val v →
        GetDailyLimit pf w account_no = (pf v, none)) := by
  refine ⟨?_, ?_⟩
  · intro v hv
    simp [GetDailyLimit, hv]
  · intro hnil v hv
    simp [GetDailyLimit, hnil, hv]

/-- Under the cache of scenarioLimit, S has its own limit 2000 and R, with no entry of its own,
gets the global default 50000. -/
theorem daily_limit_lookup_witness :
    scenarioLimit.redis ("daily_limit_" ++ "S") = .val "2000" ∧
    GetDailyLimit sampleParse scenarioLimit "S" = (2000, none) ∧
    scenarioLimit.redis ("daily_limit_" ++ "R") = .Nil ∧
    scenarioLimit.redis "default_daily_limit" = .val "50000" ∧
    GetDailyLimit sampleParse scenarioLimit "R" = (50000, none) :=
  have h1 : scenarioLimit.redis ("daily_limit_" ++ "S") = .val "2000" := by
    simp [scenarioLimit, sampleWorld, limitCache]
  have h2 : scenarioLimit.redis ("daily_limit_" ++ "R") = .Nil := by
    simp [scenarioLimit, sampleWorld, limitCache]
  have h3 : scenarioLimit.redis "default_daily_limit" = .val "50000" := by
    simp [scenarioLimit, sampleWorld, limitCache]
  ⟨h1,
    by
      have h := (daily_limit_lookup sampleParse scenarioLimit "S").1 "2000" h1
      simpa [sampleParse] using h,
    h2, h3,
    by
      have h := (daily_limit_lookup sampleParse scenarioLimit "R").2 h2 "50000" h3
      simpa [sampleParse] using h⟩

/-! ## Cache frame lemmas -/

theorem accountCacheKey_ne_sumKey (no x : String) :
    "daily_transaction_" ++ x ≠ accountCacheKey no := by
  intro h
  have h1 := congrArg String.data h
  simp [accountCacheKey, String.data_append] at h1

theorem GetSumDailyTransaction_congr (pf : String → ℚ) (w w1 : World) (x : String)
    (h : w1.redis ("daily_transaction_" ++ x) = w.redis ("daily_transaction_" ++ x)) :
    GetSumDailyTransaction pf w1 x = GetSumDailyTransaction pf w x := by
  unfold GetSumDailyTransaction
  rw [h]

theorem UpdateAccount_redis (w : World) (ar : Account) (k : String)
    (hk : k ≠ accountCacheKey ar.AccountNo) :
    (UpdateAccount w ar).2.1.redis k = w.redis k := by
  unfold UpdateAccount
  cases hu : ar.UpdatedAt with
  | none => simp
  | some t =>
    simp only [repoUpdateAccount]
    split_ifs <;> simp [hk]

theorem createTransaction_redis (w : World) (tr : Transaction) :
    (createTransaction w tr).2.redis = w.redis := by
  unfold createTransaction CreateTransaction
  split_ifs <;> rfl

theorem SetTransferAmountPerDayInRedis_err {pf : String → ℚ} {ff : ℚ → String} {w w1 : World}
    {tr : Transaction} {e : Error}
    (h : SetTransferAmountPerDayInRedis pf ff w tr = (some e, w1)) : w1 = w := by
  unfold SetTransferAmountPerDayInRedis at h
  split_ifs at h
  · simp only [Prod.mk.injEq] at h
    exact h.2.symm
  · simp at h

/-- A Transfer that returns an error has written no cache entry other than, possibly, deleting
cached account snapshots. -/
theorem Transfer_err_redis (pf : String → ℚ) (ff : ℚ → String) (w : World) (tr : Transaction)
    (herr : (Transfer pf ff w tr).err ≠ none) (k : String)
    (hk : ∀ no, k ≠ accountCacheKey no) :
    (Transfer pf ff w tr).world.redis k = w.redis k := by
  unfold Transfer at herr ⊢
  split
  · rfl
  · rename_i hl
    split
    · rfl
    · rename_i accPtr hacc
      split
      · rfl
      · rfl
      · rename_i res hres
        split
        · rfl
        · rename_i hi
          split
          · rfl
          · rename_i acc
            split
            · rfl
            · rename_i hcap
              dsimp only
              split
              · rfl
              · rename_i hb
                have h1 := UpdateAccount_redis w
                  { acc with
                    Balance := acc.Balance - (tr.Amount + calculateTransferFee acc res) }
                  k (hk _)
                split
                · rename_i e w1 x hu
                  rw [hu] at h1
                  exact h1
                · rename_i w1 acc2 hu
                  rw [hu] at h1
                  have h2 := UpdateAccount_redis w1
                    { res with Balance := res.Balance + tr.Amount } k (hk _)
                  split
                  · rename_i e w2 x hu2
                    rw [hu2] at h2
                    exact h2.trans h1
                  · rename_i w2 res2 hu2
                    rw [hu2] at h2
                    have h3 := createTransaction_redis w2
                      { tr with Fee := calculateTransferFee acc res,
                                Total := tr.Amount + calculateTransferFee acc res }
                    split
                    · rename_i e w3 hc
                      rw [hc] at h3
                      rw [show w3.redis = w2.redis from h3]
                      exact h2.trans h1
                    · rename_i w3 hc
                      rw [hc] at h3
                      split
                      · rename_i e w4 hs
                        rw [SetTransferAmountPerDayInRedis_err hs,
                          show w3.redis = w2.redis from h3]
                        exact h2.trans h1
                      · rename_i w4 hs
                        exfalso
                        simp [hl, hacc, hres, hi, hcap, hb, hu, hu2, hc, hs] at herr

/-! ## Claims on the limit guard and its cache -/

/-- C11. When no running sum is cached for an account, GetSumDailyTransaction returns 0 and no
error, and the daily check of a request of that account passes exactly when the proposed amount
alone is at most the daily limit. -/
theorem running_sum_absent (pf : String → ℚ) (w : World) (account_no : String)
    (habsent : w.redis ("daily_transaction_" ++ account_no) = .Nil) :
    GetSumDailyTransaction pf w account_no = (0, none) ∧
    (∀ tr : Transaction, tr.Account.AccountNo = account_no →
      (checkTransactionLimit pf w tr = true ↔ tr.Amount ≤ (GetDailyLimit pf w account_no).1)) := by
  have hsum : GetSumDailyTransaction pf w account_no = (0, none) := by
    simp [GetSumDailyTransaction, habsent]
  refine ⟨hsum, ?_⟩
  intro tr htr
  have herr : (GetDailyLimit pf w account_no).2 = none := GetDailyLimit_err pf w _
  unfold checkTransactionLimit
  rw [htr, hsum]
  rcases hd : GetDailyLimit pf w account_no with ⟨d, e⟩
  rw [hd] at herr
  simp only at herr
  subst herr
  simp

/-- In scenario A no running sum is cached for S: the sum reads 0 with no error, and a request
of 50000, equal to the default daily limit, passes the daily check. -/
theorem running_sum_absent_witness :
    scenarioA.redis ("daily_transaction_" ++ "S") = .Nil ∧
    GetSumDailyTransaction sampleParse scenarioA "S" = (0, none) ∧
    checkTransactionLimit sampleParse scenarioA (sampleRequest "transfer" "S" "R" 50000) = true :=
  have h : scenarioA.redis ("daily_transaction_" ++ "S") = .Nil := by
    simp [scenarioA, sampleWorld, defaultCache]
  ⟨h, (running_sum_absent sampleParse scenarioA "S" h).1,
    ((running_sum_absent sampleParse scenarioA "S" h).2
      (sampleRequest "transfer" "S" "R" 50000) rfl).mpr (by
        simp [scenarioA, Transfer, Withdraw, Deposit, checkTransactionLimit, GetDailyLimit, GetSumDailyTransaction,
    GetAccountByAccountNo, fetchAccountFromDatabase, getAllAccount, checkTransferLimit,
    calculateTransferFee, UpdateAccount, repoUpdateAccount, rowsAffected, updateRows,
    createTransaction, CreateTransaction, SetTransferAmountPerDayInRedis, accountCacheKey,
    sampleWorld, sampleAccount, sampleRequest, sampleParse, sampleFormat, defaultCache, limitCache])⟩

/-- C12. The limit checks write nothing: a Transfer refused by the daily check, or by the
per-transaction check, leaves the whole world as it was. And every Transfer that returns an
error leaves the cached running sum of every account as it was, so the running sum is written
only when both account updates and the creation of the record have succeeded. -/
theorem running_sum_frame (pf : String → ℚ) (ff : ℚ → String) (w : World) (tr : Transaction) :
    (checkTransactionLimit pf w tr = false → (Transfer pf ff w tr).world = w) ∧
    (∀ acc res e, checkTransactionLimit pf w tr = true →
      GetAccountByAccountNo w tr.Account.AccountNo = .ok (some acc) →
      GetAccountByAccountNo w tr.Receiver.AccountNo = .ok (some res) →
      res.Status ≠ "inactive" →
      checkTransferLimit pf w acc.AccountNo tr.Amount = some e →
      (Transfer pf ff w tr).err = some e ∧ (Transfer pf ff w tr).world = w) ∧
    ((Transfer pf ff w tr).err ≠ none → ∀ account_no,
      (Transfer pf ff w tr).world.redis ("daily_transaction_" ++ account_no)
        = w.redis ("daily_transaction_" ++ account_no) ∧
      GetSumDailyTransaction pf (Transfer pf ff w tr).world account_no
        = GetSumDailyTransaction pf w account_no) := by
  refine ⟨?_, ?_, ?_⟩
  · intro h
    simp [Transfer, h]
  · intro acc res e hl hacc hres hi hcap
    simp [Transfer, hl, hacc, hres, hi, hcap]
  · intro herr account_no
    have h := Transfer_err_redis pf ff w tr herr ("daily_transaction_" ++ account_no)
      (fun no => accountCacheKey_ne_sumKey no account_no)
    exact ⟨h, GetSumDailyTransaction_congr pf w _ account_no h⟩

/-- A Transfer refused for insufficient balance (sender holding 1005, amount 1000, fee 10)
leaves the running sum of S absent, as it was; the Transfer of scenario A, which succeeds,
writes it. -/
theorem running_sum_frame_witness :
    (Transfer sampleParse sampleFormat scenarioFee (sampleRequest "transfer" "S" "R" 1000)).err
      ≠ none ∧
    (Transfer sampleParse sampleFormat scenarioFee
      (sampleRequest "transfer" "S" "R" 1000)).world.redis ("daily_transaction_" ++ "S")
      = scenarioFee.redis ("daily_transaction_" ++ "S") ∧
    scenarioA.redis "daily_transaction_S" = .Nil ∧
    (Transfer sampleParse sampleFormat scenarioA
      (sampleRequest "transfer" "S" "R" 1000)).world.redis "daily_transaction_S" = .val "1000" :=
  have heval : (Transfer sampleParse sampleFormat scenarioFee
      (sampleRequest "transfer" "S" "R" 1000)).err = some .ErrInsufficientBalance := by
    simp [scenarioFee, Transfer, Withdraw, Deposit, checkTransactionLimit, GetDailyLimit, GetSumDailyTransaction,
    GetAccountByAccountNo, fetchAccountFromDatabase, getAllAccount, checkTransferLimit,
    calculateTransferFee, UpdateAccount, repoUpdateAccount, rowsAffected, updateRows,
    createTransaction, CreateTransaction, SetTransferAmountPerDayInRedis, accountCacheKey,
    sampleWorld, sampleAccount, sampleRequest, sampleParse, sampleFormat, defaultCache, limitCache]
    norm_num
  have herr : (Transfer sampleParse sampleFormat scenarioFee
      (sampleRequest "transfer" "S" "R" 1000)).err ≠ none := by
    rw [heval]
    simp
  ⟨herr,
    ((running_sum_frame sampleParse sampleFormat scenarioFee
      (sampleRequest "transfer" "S" "R" 1000)).2.2 herr "S").1,
    by simp [scenarioA, sampleWorld, defaultCache],
    by
      simp [scenarioA, Transfer, Withdraw, Deposit, checkTransactionLimit, GetDailyLimit, GetSumDailyTransaction,
    GetAccountByAccountNo, fetchAccountFromDatabase, getAllAccount, checkTransferLimit,
    calculateTransferFee, UpdateAccount, repoUpdateAccount, rowsAffected, updateRows,
    createTransaction, CreateTransaction, SetTransferAmountPerDayInRedis, accountCacheKey,
    sampleWorld, sampleAccount, sampleRequest, sampleParse, sampleFormat, defaultCache, limitCache]
      norm_num⟩

/-! ## Committed single-account operations -/

theorem createTransaction_cases (w : World) (tr : Transaction) :
    (createTransaction w tr = (some (.driver "insert"), w) ∧ w.createErr = true) ∨
    (createTransaction w tr = (none, { w with transactions := w.transactions ++ [tr] }) ∧
      w.createErr = false) := by
  unfold createTransaction CreateTransaction
  by_cases h : w.createErr = true
  · left
    simp [h]
  · right
    simp [h]

/-- The ledger returns the row written by an update of an account that was loaded. -/
theorem stored_after_update {w w1 : World} {k : String} {acc : Account} (ar : Account)
    (hacc : GetAccountByAccountNo w k = .ok (some acc)) (hno : ar.AccountNo = acc.AccountNo)
    (ha : w1.accounts = updateRows w.accounts ar) (hqe : w1.queryErr = w.queryErr) :
    GetAccountByAccountNo w1 k
      = .ok (some { acc with Balance := ar.Balance, UpdatedAt := ar.UpdatedAt }) := by
  obtain ⟨hq, r, hr, hf⟩ := GetAccountByAccountNo_ok hacc
  cases hr
  have hk : acc.AccountNo = k := firstRow_accountNo hf
  rw [GetAccountByAccountNo_eq, hqe, hq, ha, firstRow_updateRows_same, hf]
  · simp
  · rw [hno, hk]

theorem UpdateAccount_err_kind (w : World) (ar : Account) :
    (UpdateAccount w ar).1 = none ∨ (UpdateAccount w ar).1 = some .nilDeref ∨
    ∃ msg, (UpdateAccount w ar).1 = some (.driver msg) ∨
      (UpdateAccount w ar).1 = some (.errorf msg) := by
  unfold UpdateAccount
  cases hu : ar.UpdatedAt with
  | none => simp
  | some t =>
    simp only [repoUpdateAccount]
    split_ifs <;> simp

/-- C16. Transfer to an inactive receiver: when the daily check passes and both accounts load,
a receiver whose status is "inactive" makes Transfer fail with ErrAccDeleted and leave the
world untouched, whatever the sender's balance and whatever per-transaction cap is cached. -/
theorem transfer_receiver_inactive (pf : String → ℚ) (ff : ℚ → String) (w : World)
    (tr : Transaction) (acc res : Account)
    (hlimit : checkTransactionLimit pf w tr = true)
    (hacc : GetAccountByAccountNo w tr.Account.AccountNo = .ok (some acc))
    (hres : GetAccountByAccountNo w tr.Receiver.AccountNo = .ok (some res))
    (hinactive : res.Status = "inactive") :
    (Transfer pf ff w tr).err = some .ErrAccDeleted ∧
    (Transfer pf ff w tr).world = w ∧
    GetAccountByAccountNo (Transfer pf ff w tr).world tr.Account.AccountNo = .ok (some acc) ∧
    GetAccountByAccountNo (Transfer pf ff w tr).world tr.Receiver.AccountNo
      = .ok (some res) := by
  have h : Transfer pf ff w tr = ⟨some .ErrAccDeleted, w, tr⟩ := by
    simp [Transfer, hlimit, hacc, hres, hinactive]
  rw [h]
  exact ⟨rfl, rfl, hacc, hres⟩

/-- Scenario E of the spec: S holds 5000 and sends 1000 to R, whose status is inactive; the
Transfer fails with ErrAccDeleted and both balances stay as they were. -/
theorem transfer_receiver_inactive_witness :
    checkTransactionLimit sampleParse scenarioInactive (sampleRequest "transfer" "S" "R" 1000)
      = true ∧
    (sampleAccount "R" "X" "inactive" 0).Status = "inactive" ∧
    (Transfer sampleParse sampleFormat scenarioInactive
      (sampleRequest "transfer" "S" "R" 1000)).err = some .ErrAccDeleted ∧
    (Transfer sampleParse sampleFormat scenarioInactive
      (sampleRequest "transfer" "S" "R" 1000)).world = scenarioInactive :=
  have hl : checkTransactionLimit sampleParse scenarioInactive
      (sampleRequest "transfer" "S" "R" 1000) = true := by
    simp [scenarioInactive, Transfer, Withdraw, Deposit, checkTransactionLimit, GetDailyLimit, GetSumDailyTransaction,
    GetAccountByAccountNo, fetchAccountFromDatabase, getAllAccount, checkTransferLimit,
    calculateTransferFee, UpdateAccount, repoUpdateAccount, rowsAffected, updateRows,
    createTransaction, CreateTransaction, SetTransferAmountPerDayInRedis, accountCacheKey,
    sampleWorld, sampleAccount, sampleRequest, sampleParse, sampleFormat, defaultCache, limitCache, depositCache]
    norm_num
  have hthm := transfer_receiver_inactive sampleParse sampleFormat scenarioInactive
    (sampleRequest "transfer" "S" "R" 1000)
    (sampleAccount "S" "X" "active" 5000) (sampleAccount "R" "X" "inactive" 0)
    hl (by simp [scenarioInactive, Transfer, Withdraw, Deposit, checkTransactionLimit, GetDailyLimit, GetSumDailyTransaction,
    GetAccountByAccountNo, fetchAccountFromDatabase, getAllAccount, checkTransferLimit,
    calculateTransferFee, UpdateAccount, repoUpdateAccount, rowsAffected, updateRows,
    createTransaction, CreateTransaction, SetTransferAmountPerDayInRedis, accountCacheKey,
    sampleWorld, sampleAccount, sampleRequest, sampleParse, sampleFormat, defaultCache, limitCache, depositCache]) (by simp [scenarioInactive, Transfer, Withdraw, Deposit, checkTransactionLimit, GetDailyLimit, GetSumDailyTransaction,
    GetAccountByAccountNo, fetchAccountFromDatabase, getAllAccount, checkTransferLimit,
    calculateTransferFee, UpdateAccount, repoUpdateAccount, rowsAffected, updateRows,
    createTransaction, CreateTransaction, SetTransferAmountPerDayInRedis, accountCacheKey,
    sampleWorld, sampleAccount, sampleRequest, sampleParse, sampleFormat, defaultCache, limitCache, depositCache]) rfl
  ⟨hl, rfl, hthm.1, hthm.2.1⟩

/-- Transfer never returns ErrResipientNotFound: the ledger accessor reports a missing account
as the error ErrNotFound, never as a nil account with a nil error. -/
theorem Transfer_never_recipient_not_found (pf : String → ℚ) (ff : ℚ → String) (w : World)
    (tr : Transaction) : (Transfer pf ff w tr).err ≠ some .ErrResipientNotFound := by
  intro h
  unfold Transfer at h
  split at h
  · simp at h
  · split at h
    · rename_i e hacc
      rw [GetAccountByAccountNo_eq] at hacc
      split_ifs at hacc
      · simp at hacc h
        rw [← hacc] at h
        simp at h
      · cases hf : firstRow w.accounts tr.Account.AccountNo <;> simp [hf] at hacc
        rw [← hacc] at h
        simp at h
    · split at h
      · rename_i e hres
        rw [GetAccountByAccountNo_eq] at hres
        split_ifs at hres
        · simp at hres h
          rw [← hres] at h
          simp at h
        · cases hf : firstRow w.accounts tr.Receiver.AccountNo <;> simp [hf] at hres
          rw [← hres] at h
          simp at h
      · rename_i hres
        obtain ⟨-, r, hr, -⟩ := GetAccountByAccountNo_ok hres
        simp at hr
      · rename_i res hres
        split at h
        · simp at h
        · split at h
          · simp at h
          · rename_i acc hsender
            split at h
            · rename_i e hcap
              unfold checkTransferLimit at hcap
              dsimp only at hcap
              split_ifs at hcap
              simp at hcap h
              rw [← hcap] at h
              simp at h
            · dsimp only at h
              split at h
              · simp at h
              · have hk1 := UpdateAccount_err_kind w
                  { acc with
                    Balance := acc.Balance - (tr.Amount + calculateTransferFee acc res) }
                split at h
                · rename_i e w1 x hu
                  rw [hu] at hk1
                  simp at h
                  subst h
                  simp at hk1
                · rename_i w1 acc2 hu
                  have hk2 := UpdateAccount_err_kind w1
                    { res with Balance := res.Balance + tr.Amount }
                  split at h
                  · rename_i e w2 x hu2
                    rw [hu2] at hk2
                    simp at h
                    subst h
                    simp at hk2
                  · split at h
                    · rename_i e w3 hc
                      rcases createTransaction_cases _ _ with ⟨hh, -⟩ | ⟨hh, -⟩ <;>
                        rw [hh] at hc <;> simp at hc h
                      rw [← hc.1] at h
                      simp at h
                    · split at h
                      · rename_i e w4 hs
                        unfold SetTransferAmountPerDayInRedis at hs
                        split_ifs at hs
                        · simp at hs h
                          rw [← hs.1] at h
                          simp at h
                        · simp at hs
                      · simp at h

/-- C17 fails on the code: in scenario A no account has the number Z, the daily check passes
and the sender S exists, yet a Transfer from S to Z returns ErrNotFound, the error of the
account lookup, and not ErrResipientNotFound. -/
theorem transfer_missing_receiver_error :
    (∀ a ∈ scenarioA.accounts, a.AccountNo ≠ "Z") ∧
    checkTransactionLimit sampleParse scenarioA (sampleRequest "transfer" "S" "Z" 1000) = true ∧
    GetAccountByAccountNo scenarioA "S" = .ok (some (sampleAccount "S" "X" "active" 5000)) ∧
    fetchAccountFromDatabase scenarioA "Z" = .error .ErrNotFound ∧
    (Transfer sampleParse sampleFormat scenarioA (sampleRequest "transfer" "S" "Z" 1000)).err
      = some .ErrNotFound := by
  refine ⟨?_, ?_, ?_, ?_, ?_⟩
  · simp [scenarioA, sampleWorld, sampleAccount]
  · simp [scenarioA, Transfer, Withdraw, Deposit, checkTransactionLimit, GetDailyLimit, GetSumDailyTransaction,
    GetAccountByAccountNo, fetchAccountFromDatabase, getAllAccount, checkTransferLimit,
    calculateTransferFee, UpdateAccount, repoUpdateAccount, rowsAffected, updateRows,
    createTransaction, CreateTransaction, SetTransferAmountPerDayInRedis, accountCacheKey,
    sampleWorld, sampleAccount, sampleRequest, sampleParse, sampleFormat, defaultCache, limitCache, depositCache]
    norm_num
  · simp [scenarioA, Transfer, Withdraw, Deposit, checkTransactionLimit, GetDailyLimit, GetSumDailyTransaction,
    GetAccountByAccountNo, fetchAccountFromDatabase, getAllAccount, checkTransferLimit,
    calculateTransferFee, UpdateAccount, repoUpdateAccount, rowsAffected, updateRows,
    createTransaction, CreateTransaction, SetTransferAmountPerDayInRedis, accountCacheKey,
    sampleWorld, sampleAccount, sampleRequest, sampleParse, sampleFormat, defaultCache, limitCache, depositCache]
  · simp [scenarioA, Transfer, Withdraw, Deposit, checkTransactionLimit, GetDailyLimit, GetSumDailyTransaction,
    GetAccountByAccountNo, fetchAccountFromDatabase, getAllAccount, checkTransferLimit,
    calculateTransferFee, UpdateAccount, repoUpdateAccount, rowsAffected, updateRows,
    createTransaction, CreateTransaction, SetTransferAmountPerDayInRedis, accountCacheKey,
    sampleWorld, sampleAccount, sampleRequest, sampleParse, sampleFormat, defaultCache, limitCache, depositCache]
  · simp [scenarioA, Transfer, Withdraw, Deposit, checkTransactionLimit, GetDailyLimit, GetSumDailyTransaction,
    GetAccountByAccountNo, fetchAccountFromDatabase, getAllAccount, checkTransferLimit,
    calculateTransferFee, UpdateAccount, repoUpdateAccount, rowsAffected, updateRows,
    createTransaction, CreateTransaction, SetTransferAmountPerDayInRedis, accountCacheKey,
    sampleWorld, sampleAccount, sampleRequest, sampleParse, sampleFormat, defaultCache, limitCache, depositCache]
    norm_num

/-- C18. The daily check comes first: when the running sum plus the amount exceeds the daily
limit, Transfer returns the daily-limit error and leaves the world untouched, and it does so
for every content of the ledger and every failure of the database, since no account is read:
replacing the rows and making reads or writes fail gives the same answer. -/
theorem daily_check_first (pf : String → ℚ) (ff : ℚ → String) (w : World) (tr : Transaction)
    (hover : (GetDailyLimit pf w tr.Account.AccountNo).1
      < (GetSumDailyTransaction pf w tr.Account.AccountNo).1 + tr.Amount) :
    (Transfer pf ff w tr).err = some (.errorf "exceed limit per day") ∧
    (Transfer pf ff w tr).world = w ∧
    (∀ (rows : List Account) (qe ee : String → Bool),
      Transfer pf ff { w with accounts := rows, queryErr := qe, execErr := ee } tr
        = ⟨some (.errorf "exceed limit per day"),
            { w with accounts := rows, queryErr := qe, execErr := ee }, tr⟩) := by
  have key : ∀ w1 : World, w1.redis = w.redis →
      Transfer pf ff w1 tr = ⟨some (.errorf "exceed limit per day"), w1, tr⟩ := by
    intro w1 hw1
    have hd : GetDailyLimit pf w1 tr.Account.AccountNo
        = GetDailyLimit pf w tr.Account.AccountNo := by
      simp [GetDailyLimit, hw1]
    have hs : GetSumDailyTransaction pf w1 tr.Account.AccountNo
        = GetSumDailyTransaction pf w tr.Account.AccountNo := by
      simp [GetSumDailyTransaction, hw1]
    have herr : (GetDailyLimit pf w tr.Account.AccountNo).2 = none := GetDailyLimit_err pf w _
    have hfalse : checkTransactionLimit pf w1 tr = false := by
      unfold checkTransactionLimit
      rw [hd, hs]
      rcases hg : GetDailyLimit pf w tr.Account.AccountNo with ⟨d, e⟩
      rw [hg] at herr hover
      simp only at herr hover
      subst herr
      simp only [gt_iff_lt]
      rw [add_comm] at hover
      simp [hover]
    simp [Transfer, hfalse]
  refine ⟨?_, ?_, ?_⟩
  · rw [key w rfl]
  · rw [key w rfl]
  · intro rows qe ee
    exact key _ rfl

/-- Over an empty ledger all of whose reads fail, with a daily limit of 2000 and a running sum
of 1000 cached for S, a Transfer of 1000.01 from S to R is refused with the daily-limit error:
neither the missing accounts nor the failing reads are noticed. -/
theorem daily_check_first_witness :
    scenarioNoLedger.accounts = [] ∧
    GetAccountByAccountNo scenarioNoLedger "S" = .error (.driver "query") ∧
    (GetDailyLimit sampleParse scenarioNoLedger "S").1
      < (GetSumDailyTransaction sampleParse scenarioNoLedger "S").1 + 100001 / 100 ∧
    (Transfer sampleParse sampleFormat scenarioNoLedger
      (sampleRequest "transfer" "S" "R" (100001 / 100))).err
      = some (.errorf "exceed limit per day") :=
  have hover : (GetDailyLimit sampleParse scenarioNoLedger "S").1
      < (GetSumDailyTransaction sampleParse scenarioNoLedger "S").1 + 100001 / 100 := by
    simp [scenarioNoLedger, Transfer, Withdraw, Deposit, checkTransactionLimit, GetDailyLimit, GetSumDailyTransaction,
    GetAccountByAccountNo, fetchAccountFromDatabase, getAllAccount, checkTransferLimit,
    calculateTransferFee, UpdateAccount, repoUpdateAccount, rowsAffected, updateRows,
    createTransaction, CreateTransaction, SetTransferAmountPerDayInRedis, accountCacheKey,
    sampleWorld, sampleAccount, sampleRequest, sampleParse, sampleFormat, defaultCache, limitCache, depositCache]
    norm_num
  ⟨rfl, by simp [scenarioNoLedger, Transfer, Withdraw, Deposit, checkTransactionLimit, GetDailyLimit, GetSumDailyTransaction,
    GetAccountByAccountNo, fetchAccountFromDatabase, getAllAccount, checkTransferLimit,
    calculateTransferFee, UpdateAccount, repoUpdateAccount, rowsAffected, updateRows,
    createTransaction, CreateTransaction, SetTransferAmountPerDayInRedis, accountCacheKey,
    sampleWorld, sampleAccount, sampleRequest, sampleParse, sampleFormat, defaultCache, limitCache, depositCache], hover,
    (daily_check_first sampleParse sampleFormat scenarioNoLedger
      (sampleRequest "transfer" "S" "R" (100001 / 100)) hover).1⟩

/-! ## Claims on the write phase of Transfer -/

theorem UpdateAccount_frame (w : World) (ar : Account) :
    (UpdateAccount w ar).2.1.queryErr = w.queryErr ∧
    (UpdateAccount w ar).2.1.execErr = w.execErr ∧
    (UpdateAccount w ar).2.1.transactions = w.transactions := by
  unfold UpdateAccount
  cases hu : ar.UpdatedAt with
  | none => simp
  | some t =>
    simp only [repoUpdateAccount]
    split_ifs <;> simp

theorem UpdateAccount_execErr (w : World) (ar : Account)
    (h : w.execErr ar.AccountNo = true) :
    (UpdateAccount w ar).2.1 = w := by
  unfold UpdateAccount
  cases hu : ar.UpdatedAt with
  | none => simp
  | some t => simp [repoUpdateAccount, h]

/-- The row of another account number is the same after any call of UpdateAccount. -/
theorem UpdateAccount_other (w : World) (ar : Account) (k : String) (hk : k ≠ ar.AccountNo) :
    GetAccountByAccountNo (UpdateAccount w ar).2.1 k = GetAccountByAccountNo w k := by
  rw [GetAccountByAccountNo_eq, GetAccountByAccountNo_eq, (UpdateAccount_frame w ar).1]
  rcases UpdateAccount_accounts w ar with h | h
  · rw [h]
  · rw [h, firstRow_updateRows_other w.accounts { ar with UpdatedAt := some w.now } k hk]

/-- Transfer once its checks have passed: the outcome is decided by the two updates. -/
theorem Transfer_write_phase (pf : String → ℚ) (ff : ℚ → String) {w : World} {tr : Transaction}
    {acc res : Account}
    (hlimit : checkTransactionLimit pf w tr = true)
    (hacc : GetAccountByAccountNo w tr.Account.AccountNo = .ok (some acc))
    (hres : GetAccountByAccountNo w tr.Receiver.AccountNo = .ok (some res))
    (hactive : res.Status ≠ "inactive")
    (hcap : checkTransferLimit pf w acc.AccountNo tr.Amount = none)
    (hb : ¬ acc.Balance < tr.Amount + calculateTransferFee acc res) :
    (∀ e, (UpdateAccount w
        { acc with Balance := acc.Balance - (tr.Amount + calculateTransferFee acc res) }).1
          = some e →
      (Transfer pf ff w tr).err = some e ∧
      (Transfer pf ff w tr).world = (UpdateAccount w
        { acc with Balance := acc.Balance - (tr.Amount + calculateTransferFee acc res) }).2.1) ∧
    ((UpdateAccount w
        { acc with Balance := acc.Balance - (tr.Amount + calculateTransferFee acc res) }).1
          = none →
      ∀ e, (UpdateAccount (UpdateAccount w
          { acc with Balance := acc.Balance - (tr.Amount + calculateTransferFee acc res) }).2.1
          { res with Balance := res.Balance + tr.Amount }).1 = some e →
        (Transfer pf ff w tr).err = some e ∧
        (Transfer pf ff w tr).world = (UpdateAccount (UpdateAccount w
          { acc with Balance := acc.Balance - (tr.Amount + calculateTransferFee acc res) }).2.1
          { res with Balance := res.Balance + tr.Amount }).2.1) := by
  unfold Transfer
  simp only [hlimit, hacc, hres, hactive, hcap, hb, if_false, Bool.true_eq_false]
  generalize UpdateAccount w
    { acc with Balance := acc.Balance - (tr.Amount + calculateTransferFee acc res) } = u1
  obtain ⟨e1, w1, a1⟩ := u1
  cases e1 with
  | some e1 =>
    refine ⟨?_, ?_⟩
    · intro e he
      simp only [Option.some.injEq] at he
      subst he
      exact ⟨rfl, rfl⟩
    · intro h
      simp at h
  | none =>
    refine ⟨?_, ?_⟩
    · intro e he
      simp at he
    · intro _ e he
      simp only at he ⊢
      generalize UpdateAccount w1 { res with Balance := res.Balance + tr.Amount } = u2 at he ⊢
      obtain ⟨e2, w2, a2⟩ := u2
      simp only at he
      subst he
      exact ⟨rfl, rfl⟩

/-- C19, as stated, fails: in scenario A with a cache client that cannot delete the snapshot of
R, a Transfer of 1000 from S to R updates the sender, then the receiver's update returns an
error, and Transfer returns that error with no record created; but the receiver's row had
already been written, so its stored balance is 1007 and not the 7 it was. -/
theorem transfer_write_order_counterexample :
    (UpdateAccount scenarioDelFail
      { sampleAccount "S" "X" "active" 5000 with Balance := 5000 - (1000 + 10) }).1 = none ∧
    (Transfer sampleParse sampleFormat scenarioDelFail
      (sampleRequest "transfer" "S" "R" 1000)).err = some (.driver "del") ∧
    (Transfer sampleParse sampleFormat scenarioDelFail
      (sampleRequest "transfer" "S" "R" 1000)).world.transactions = [] ∧
    scenarioDelFail.accounts.map (fun a => a.Balance) = [5000, 7] ∧
    (Transfer sampleParse sampleFormat scenarioDelFail
      (sampleRequest "transfer" "S" "R" 1000)).world.accounts.map (fun a => a.Balance)
      = [3990, 1007] := by
  refine ⟨?_, ?_, ?_, ?_, ?_⟩
  · simp [scenarioDelFail, Transfer, Withdraw, Deposit, checkTransactionLimit, GetDailyLimit, GetSumDailyTransaction,
    GetAccountByAccountNo, fetchAccountFromDatabase, getAllAccount, checkTransferLimit,
    calculateTransferFee, UpdateAccount, repoUpdateAccount, rowsAffected, updateRows,
    createTransaction, CreateTransaction, SetTransferAmountPerDayInRedis, accountCacheKey,
    sampleWorld, sampleAccount, sampleRequest, sampleParse, sampleFormat, defaultCache, limitCache, depositCache, scenarioA]
  · simp [scenarioDelFail, Transfer, Withdraw, Deposit, checkTransactionLimit, GetDailyLimit, GetSumDailyTransaction,
    GetAccountByAccountNo, fetchAccountFromDatabase, getAllAccount, checkTransferLimit,
    calculateTransferFee, UpdateAccount, repoUpdateAccount, rowsAffected, updateRows,
    createTransaction, CreateTransaction, SetTransferAmountPerDayInRedis, accountCacheKey,
    sampleWorld, sampleAccount, sampleRequest, sampleParse, sampleFormat, defaultCache, limitCache, depositCache, scenarioA]
    norm_num
  · simp [scenarioDelFail, Transfer, Withdraw, Deposit, checkTransactionLimit, GetDailyLimit, GetSumDailyTransaction,
    GetAccountByAccountNo, fetchAccountFromDatabase, getAllAccount, checkTransferLimit,
    calculateTransferFee, UpdateAccount, repoUpdateAccount, rowsAffected, updateRows,
    createTransaction, CreateTransaction, SetTransferAmountPerDayInRedis, accountCacheKey,
    sampleWorld, sampleAccount, sampleRequest, sampleParse, sampleFormat, defaultCache, limitCache, depositCache, scenarioA]
    norm_num
  · simp [scenarioDelFail, Transfer, Withdraw, Deposit, checkTransactionLimit, GetDailyLimit, GetSumDailyTransaction,
    GetAccountByAccountNo, fetchAccountFromDatabase, getAllAccount, checkTransferLimit,
    calculateTransferFee, UpdateAccount, repoUpdateAccount, rowsAffected, updateRows,
    createTransaction, CreateTransaction, SetTransferAmountPerDayInRedis, accountCacheKey,
    sampleWorld, sampleAccount, sampleRequest, sampleParse, sampleFormat, defaultCache, limitCache, depositCache, scenarioA]
  · simp [scenarioDelFail, Transfer, Withdraw, Deposit, checkTransactionLimit, GetDailyLimit, GetSumDailyTransaction,
    GetAccountByAccountNo, fetchAccountFromDatabase, getAllAccount, checkTransferLimit,
    calculateTransferFee, UpdateAccount, repoUpdateAccount, rowsAffected, updateRows,
    createTransaction, CreateTransaction, SetTransferAmountPerDayInRedis, accountCacheKey,
    sampleWorld, sampleAccount, sampleRequest, sampleParse, sampleFormat, defaultCache, limitCache, depositCache, scenarioA]
    norm_num

/-- C19, amended. For a Transfer between distinct account numbers that reaches the write
phase: if the sender's update returns an error, Transfer returns it with the world as that
update left it, so the receiver's update is not attempted, the receiver's row is as before and
no record is created; if the sender's update succeeds and the receiver's returns an error,
Transfer returns that error, no record is created, and the ledger keeps the sender's balance
reduced by amount plus fee (no rollback); the receiver's row is as before when the error is
that of the UPDATE statement itself. -/
theorem transfer_write_order (pf : String → ℚ) (ff : ℚ → String) (w : World) (tr : Transaction)
    (acc res : Account)
    (hlimit : checkTransactionLimit pf w tr = true)
    (hacc : GetAccountByAccountNo w tr.Account.AccountNo = .ok (some acc))
    (hres : GetAccountByAccountNo w tr.Receiver.AccountNo = .ok (some res))
    (hactive : res.Status ≠ "inactive")
    (hcap : checkTransferLimit pf w acc.AccountNo tr.Amount = none)
    (hb : ¬ acc.Balance < tr.Amount + calculateTransferFee acc res)
    (hne : tr.Account.AccountNo ≠ tr.Receiver.AccountNo) :
    (∀ e, (UpdateAccount w { acc with Balance := acc.Balance - (tr.Amount + calculateTransferFee acc res) }).1 = some e →
      (Transfer pf ff w tr).err = some e ∧
      (Transfer pf ff w tr).world = (UpdateAccount w { acc with Balance := acc.Balance - (tr.Amount + calculateTransferFee acc res) }).2.1 ∧
      GetAccountByAccountNo (Transfer pf ff w tr).world tr.Receiver.AccountNo
        = .ok (some res) ∧
      (Transfer pf ff w tr).world.transactions = w.transactions) ∧
    ((UpdateAccount w { acc with Balance := acc.Balance - (tr.Amount + calculateTransferFee acc res) }).1 = none →
      ∀ e, (UpdateAccount (UpdateAccount w { acc with Balance := acc.Balance - (tr.Amount + calculateTransferFee acc res) }).2.1 { res with Balance := res.Balance + tr.Amount }).1 = some e →
        (Transfer pf ff w tr).err = some e ∧
        (Transfer pf ff w tr).world.transactions = w.transactions ∧
        (∃ s1, GetAccountByAccountNo (Transfer pf ff w tr).world tr.Account.AccountNo
            = .ok (some s1) ∧
          s1.Balance = acc.Balance - (tr.Amount + calculateTransferFee acc res)) ∧
        (w.execErr res.AccountNo = true →
          GetAccountByAccountNo (Transfer pf ff w tr).world tr.Receiver.AccountNo
            = .ok (some res))) := by
  obtain ⟨-, a, ha, hfs⟩ := GetAccountByAccountNo_ok hacc
  obtain ⟨-, b, hb1, hfr⟩ := GetAccountByAccountNo_ok hres
  cases ha
  cases hb1
  have hsno : acc.AccountNo = tr.Account.AccountNo := firstRow_accountNo hfs
  have hrno : res.AccountNo = tr.Receiver.AccountNo := firstRow_accountNo hfr
  obtain ⟨hp1, hp2⟩ := Transfer_write_phase pf ff hlimit hacc hres hactive hcap hb
  refine ⟨?_, ?_⟩
  · intro e he
    obtain ⟨h1, h2⟩ := hp1 e he
    refine ⟨h1, h2, ?_, ?_⟩
    · rw [h2, UpdateAccount_other w { acc with Balance := acc.Balance - (tr.Amount + calculateTransferFee acc res) } _ (by simpa [hsno] using hne.symm)]
      exact hres
    · rw [h2]
      exact (UpdateAccount_frame w { acc with Balance := acc.Balance - (tr.Amount + calculateTransferFee acc res) }).2.2
  · intro hok e he
    obtain ⟨h1, h2⟩ := hp2 hok e he
    have hfr1 := UpdateAccount_frame w { acc with Balance := acc.Balance - (tr.Amount + calculateTransferFee acc res) }
    have hfr2 := UpdateAccount_frame (UpdateAccount w { acc with Balance := acc.Balance - (tr.Amount + calculateTransferFee acc res) }).2.1 { res with Balance := res.Balance + tr.Amount }
    refine ⟨h1, ?_, ?_, ?_⟩
    · rw [h2, hfr2.2.2, hfr1.2.2]
    · rw [h2, UpdateAccount_other _ { res with Balance := res.Balance + tr.Amount } _ (by simpa [hrno] using hne)]
      rcases hU : UpdateAccount w { acc with Balance := acc.Balance - (tr.Amount + calculateTransferFee acc res) } with ⟨e1, w1, a1⟩
      rw [hU] at hok
      simp only at hok
      subst hok
      obtain ⟨ha1, -, hw1⟩ := UpdateAccount_ok hU
      refine ⟨_, stored_after_update a1 hacc (by rw [ha1]) (by rw [hw1]) (by rw [hw1]), ?_⟩
      rw [ha1]
    · intro hexec
      have hex1 : (UpdateAccount w { acc with Balance := acc.Balance - (tr.Amount + calculateTransferFee acc res) }).2.1.execErr { res with Balance := res.Balance + tr.Amount }.AccountNo = true := by
        rw [hfr1.2.1]
        exact hexec
      rw [h2, UpdateAccount_execErr _ { res with Balance := res.Balance + tr.Amount } hex1,
        UpdateAccount_other w { acc with Balance := acc.Balance - (tr.Amount + calculateTransferFee acc res) } _ (by simpa [hsno] using hne.symm)]
      exact hres

/-- In scenario A with a database that fails every UPDATE of R, a Transfer of 1000 from S to R
returns the driver's error: S is left at 3990, R at 7, and no record is created. -/
theorem transfer_write_order_witness :
    (sampleRequest "transfer" "S" "R" 1000).Account.AccountNo
      ≠ (sampleRequest "transfer" "S" "R" 1000).Receiver.AccountNo ∧
    (Transfer sampleParse sampleFormat scenarioExecFail
      (sampleRequest "transfer" "S" "R" 1000)).err = some (.driver "exec") ∧
    (Transfer sampleParse sampleFormat scenarioExecFail
      (sampleRequest "transfer" "S" "R" 1000)).world.transactions
      = scenarioExecFail.transactions ∧
    GetAccountByAccountNo (Transfer sampleParse sampleFormat scenarioExecFail
      (sampleRequest "transfer" "S" "R" 1000)).world "R"
      = .ok (some (sampleAccount "R" "Y" "active" 7)) ∧
    (Transfer sampleParse sampleFormat scenarioExecFail
      (sampleRequest "transfer" "S" "R" 1000)).world.accounts.map (fun a => a.Balance)
      = [3990, 7] :=
  have hne : (sampleRequest "transfer" "S" "R" 1000).Account.AccountNo
      ≠ (sampleRequest "transfer" "S" "R" 1000).Receiver.AccountNo := by
    simp [sampleRequest, sampleAccount]
  have hthm := transfer_write_order sampleParse sampleFormat scenarioExecFail
    (sampleRequest "transfer" "S" "R" 1000)
    (sampleAccount "S" "X" "active" 5000) (sampleAccount "R" "Y" "active" 7)
    (by
      simp [scenarioExecFail, Transfer, Withdraw, Deposit, checkTransactionLimit, GetDailyLimit, GetSumDailyTransaction,
    GetAccountByAccountNo, fetchAccountFromDatabase, getAllAccount, checkTransferLimit,
    calculateTransferFee, UpdateAccount, repoUpdateAccount, rowsAffected, updateRows,
    createTransaction, CreateTransaction, SetTransferAmountPerDayInRedis, accountCacheKey,
    sampleWorld, sampleAccount, sampleRequest, sampleParse, sampleFormat, defaultCache, limitCache, depositCache, scenarioA]
      norm_num)
    (by simp [scenarioExecFail, Transfer, Withdraw, Deposit, checkTransactionLimit, GetDailyLimit, GetSumDailyTransaction,
    GetAccountByAccountNo, fetchAccountFromDatabase, getAllAccount, checkTransferLimit,
    calculateTransferFee, UpdateAccount, repoUpdateAccount, rowsAffected, updateRows,
    createTransaction, CreateTransaction, SetTransferAmountPerDayInRedis, accountCacheKey,
    sampleWorld, sampleAccount, sampleRequest, sampleParse, sampleFormat, defaultCache, limitCache, depositCache, scenarioA])
    (by simp [scenarioExecFail, Transfer, Withdraw, Deposit, checkTransactionLimit, GetDailyLimit, GetSumDailyTransaction,
    GetAccountByAccountNo, fetchAccountFromDatabase, getAllAccount, checkTransferLimit,
    calculateTransferFee, UpdateAccount, repoUpdateAccount, rowsAffected, updateRows,
    createTransaction, CreateTransaction, SetTransferAmountPerDayInRedis, accountCacheKey,
    sampleWorld, sampleAccount, sampleRequest, sampleParse, sampleFormat, defaultCache, limitCache, depositCache, scenarioA])
    (by simp [sampleAccount])
    (by simp [scenarioExecFail, Transfer, Withdraw, Deposit, checkTransactionLimit, GetDailyLimit, GetSumDailyTransaction,
    GetAccountByAccountNo, fetchAccountFromDatabase, getAllAccount, checkTransferLimit,
    calculateTransferFee, UpdateAccount, repoUpdateAccount, rowsAffected, updateRows,
    createTransaction, CreateTransaction, SetTransferAmountPerDayInRedis, accountCacheKey,
    sampleWorld, sampleAccount, sampleRequest, sampleParse, sampleFormat, defaultCache, limitCache, depositCache, scenarioA])
    (by
      simp [sampleRequest, sampleAccount, calculateTransferFee]
      norm_num)
    hne
  have hrecv := hthm.2 (by simp [scenarioExecFail, Transfer, Withdraw, Deposit, checkTransactionLimit, GetDailyLimit, GetSumDailyTransaction,
    GetAccountByAccountNo, fetchAccountFromDatabase, getAllAccount, checkTransferLimit,
    calculateTransferFee, UpdateAccount, repoUpdateAccount, rowsAffected, updateRows,
    createTransaction, CreateTransaction, SetTransferAmountPerDayInRedis, accountCacheKey,
    sampleWorld, sampleAccount, sampleRequest, sampleParse, sampleFormat, defaultCache, limitCache, depositCache, scenarioA]) (.driver "exec") (by simp [scenarioExecFail, Transfer, Withdraw, Deposit, checkTransactionLimit, GetDailyLimit, GetSumDailyTransaction,
    GetAccountByAccountNo, fetchAccountFromDatabase, getAllAccount, checkTransferLimit,
    calculateTransferFee, UpdateAccount, repoUpdateAccount, rowsAffected, updateRows,
    createTransaction, CreateTransaction, SetTransferAmountPerDayInRedis, accountCacheKey,
    sampleWorld, sampleAccount, sampleRequest, sampleParse, sampleFormat, defaultCache, limitCache, depositCache, scenarioA])
  ⟨hne, hrecv.1, hrecv.2.1, hrecv.2.2.2 (by simp [scenarioExecFail, sampleAccount]),
    by
      simp [scenarioExecFail, Transfer, Withdraw, Deposit, checkTransactionLimit, GetDailyLimit, GetSumDailyTransaction,
    GetAccountByAccountNo, fetchAccountFromDatabase, getAllAccount, checkTransferLimit,
    calculateTransferFee, UpdateAccount, repoUpdateAccount, rowsAffected, updateRows,
    createTransaction, CreateTransaction, SetTransferAmountPerDayInRedis, accountCacheKey,
    sampleWorld, sampleAccount, sampleRequest, sampleParse, sampleFormat, defaultCache, limitCache, depositCache, scenarioA]
      norm_num⟩

/-! ## Claims on the scheduled-transfer consumer -/

theorem GetAccountByAccountNo_congr {w w1 : World} (ha : w1.accounts = w.accounts)
    (hq : w1.queryErr = w.queryErr) (k : String) :
    GetAccountByAccountNo w1 k = GetAccountByAccountNo w k := by
  rw [GetAccountByAccountNo_eq, GetAccountByAccountNo_eq, ha, hq]

theorem UpdateScheduledTransaction_frame (w : World) (id : Int) :
    (UpdateScheduledTransaction w id).2.accounts = w.accounts ∧
    (UpdateScheduledTransaction w id).2.queryErr = w.queryErr := by
  unfold UpdateScheduledTransaction repoUpdateScheduledTransaction
  split_ifs <;> exact ⟨rfl, rfl⟩

/-- The two rows the ledger returns after a successful Transfer between distinct account
numbers. -/
theorem Transfer_ok_stored {pf : String → ℚ} {ff : ℚ → String} {w : World} {tr : Transaction}
    (hok : (Transfer pf ff w tr).err = none)
    (hne : tr.Account.AccountNo ≠ tr.Receiver.AccountNo) :
    ∃ s r,
      GetAccountByAccountNo w tr.Account.AccountNo = .ok (some s) ∧
      GetAccountByAccountNo w tr.Receiver.AccountNo = .ok (some r) ∧
      GetAccountByAccountNo (Transfer pf ff w tr).world tr.Account.AccountNo
        = .ok (some { s with Balance := s.Balance - (tr.Amount + calculateTransferFee s r),
                             UpdatedAt := some w.now }) ∧
      GetAccountByAccountNo (Transfer pf ff w tr).world tr.Receiver.AccountNo
        = .ok (some { r with Balance := r.Balance + tr.Amount, UpdatedAt := some w.now }) := by
  obtain ⟨acc, res, hs, hr, -, -, -, -, hacc, hq, -⟩ := Transfer_ok_inv hok
  obtain ⟨hqs, a, ha, hfs⟩ := GetAccountByAccountNo_ok hs
  obtain ⟨hqr, b, hb, hfr⟩ := GetAccountByAccountNo_ok hr
  cases ha
  cases hb
  have hsno : acc.AccountNo = tr.Account.AccountNo := firstRow_accountNo hfs
  have hrno : res.AccountNo = tr.Receiver.AccountNo := firstRow_accountNo hfr
  refine ⟨acc, res, hs, hr, ?_, ?_⟩
  · rw [GetAccountByAccountNo_eq, hq, hqs, hacc]
    rw [firstRow_updateRows_other _ _ _ (by simpa [hrno] using hne)]
    rw [firstRow_updateRows_same, hfs]
    · simp
    · exact hsno.symm
  · rw [GetAccountByAccountNo_eq, hq, hqr, hacc]
    rw [firstRow_updateRows_same, firstRow_updateRows_other _ _ _ (by simpa [hsno] using hne.symm),
      hfr]
    · simp
    · exact hrno.symm

/-- A successful application of a six-field message is a successful Transfer of the decoded
request, followed by a change of the scheduled store only. -/
theorem processScheduleTransaction_ok {pf : String → ℚ} {ff : ℚ → String}
    {pInt : String → Int} {pTime : String → Time} {w : World} {message : String}
    {f0 f1 f2 f3 f4 f5 : String} {rest : List String}
    (hsplit : strings.Split message '|' = f0 :: f1 :: f2 :: f3 :: f4 :: f5 :: rest)
    (hok : (processScheduleTransaction pf ff pInt pTime w message).err = none) :
    (Transfer pf ff w (scheduledRequest pf pTime f1 f2 f3 f4 f5)).err = none ∧
    (processScheduleTransaction pf ff pInt pTime w message).world.accounts
      = (Transfer pf ff w (scheduledRequest pf pTime f1 f2 f3 f4 f5)).world.accounts ∧
    (processScheduleTransaction pf ff pInt pTime w message).world.queryErr
      = (Transfer pf ff w (scheduledRequest pf pTime f1 f2 f3 f4 f5)).world.queryErr := by
  unfold processScheduleTransaction at hok ⊢
  rw [hsplit] at hok ⊢
  simp only at hok ⊢
  cases ht : (Transfer pf ff w (scheduledRequest pf pTime f1 f2 f3 f4 f5)).err with
  | some e =>
    rw [ht] at hok
    simp at hok
  | none =>
    simp only [ht]
    exact ⟨trivial, (UpdateScheduledTransaction_frame _ _).1,
      (UpdateScheduledTransaction_frame _ _).2⟩

/-- C20, as stated, fails: in scenario A with the scheduled transfer 1 pending, the message of
that transfer is applied twice. Both applications succeed; the first leaves S at 3990 and R at
1007 and marks the record processed, the second leaves S at 2980 and R at 2007, so the ledger
after the second application is not the ledger after the first. -/
theorem scheduled_apply_twice_counterexample :
    (processScheduleTransaction wireParse sampleFormat sampleInt sampleTime scenarioScheduled scheduledMessage).err = none ∧
    (processScheduleTransaction wireParse sampleFormat sampleInt sampleTime scenarioScheduled scheduledMessage).world.accounts.map (fun a => a.Balance)
      = [3990, 1007] ∧
    (processScheduleTransaction wireParse sampleFormat sampleInt sampleTime scenarioScheduled scheduledMessage).world.scheduled.map (fun r => (r.Id, r.Status))
      = [(1, "processed")] ∧
    (processScheduleTransaction wireParse sampleFormat sampleInt sampleTime (processScheduleTransaction wireParse sampleFormat sampleInt sampleTime scenarioScheduled scheduledMessage).world scheduledMessage).err = none ∧
    (processScheduleTransaction wireParse sampleFormat sampleInt sampleTime (processScheduleTransaction wireParse sampleFormat sampleInt sampleTime scenarioScheduled scheduledMessage).world scheduledMessage).world.accounts.map
      (fun a => a.Balance) = [2980, 2007] := by
  refine ⟨?_, ?_, ?_, ?_, ?_⟩
  · simp [Transfer, Withdraw, Deposit, checkTransactionLimit, GetDailyLimit, GetSumDailyTransaction,
    GetAccountByAccountNo, fetchAccountFromDatabase, getAllAccount, checkTransferLimit,
    calculateTransferFee, UpdateAccount, repoUpdateAccount, rowsAffected, updateRows,
    createTransaction, CreateTransaction, SetTransferAmountPerDayInRedis, accountCacheKey,
    sampleWorld, sampleAccount, sampleRequest, sampleParse, sampleFormat, defaultCache, limitCache, depositCache, scenarioA, scenarioScheduled, scheduledMessage, processScheduleTransaction,
    strings.Split, splitChars, scheduledRequest, zeroTransaction, zeroAccount,
    zeroScheduledTransaction, UpdateScheduledTransaction, repoUpdateScheduledTransaction,
    wireParse, sampleInt, sampleTime]
    iterate 4 (try norm_num; try simp)
  · simp [Transfer, Withdraw, Deposit, checkTransactionLimit, GetDailyLimit, GetSumDailyTransaction,
    GetAccountByAccountNo, fetchAccountFromDatabase, getAllAccount, checkTransferLimit,
    calculateTransferFee, UpdateAccount, repoUpdateAccount, rowsAffected, updateRows,
    createTransaction, CreateTransaction, SetTransferAmountPerDayInRedis, accountCacheKey,
    sampleWorld, sampleAccount, sampleRequest, sampleParse, sampleFormat, defaultCache, limitCache, depositCache, scenarioA, scenarioScheduled, scheduledMessage, processScheduleTransaction,
    strings.Split, splitChars, scheduledRequest, zeroTransaction, zeroAccount,
    zeroScheduledTransaction, UpdateScheduledTransaction, repoUpdateScheduledTransaction,
    wireParse, sampleInt, sampleTime]
    iterate 4 (try norm_num; try simp)
  · simp [Transfer, Withdraw, Deposit, checkTransactionLimit, GetDailyLimit, GetSumDailyTransaction,
    GetAccountByAccountNo, fetchAccountFromDatabase, getAllAccount, checkTransferLimit,
    calculateTransferFee, UpdateAccount, repoUpdateAccount, rowsAffected, updateRows,
    createTransaction, CreateTransaction, SetTransferAmountPerDayInRedis, accountCacheKey,
    sampleWorld, sampleAccount, sampleRequest, sampleParse, sampleFormat, defaultCache, limitCache, depositCache, scenarioA, scenarioScheduled, scheduledMessage, processScheduleTransaction,
    strings.Split, splitChars, scheduledRequest, zeroTransaction, zeroAccount,
    zeroScheduledTransaction, UpdateScheduledTransaction, repoUpdateScheduledTransaction,
    wireParse, sampleInt, sampleTime]
    iterate 4 (try norm_num; try simp)
  · simp [Transfer, Withdraw, Deposit, checkTransactionLimit, GetDailyLimit, GetSumDailyTransaction,
    GetAccountByAccountNo, fetchAccountFromDatabase, getAllAccount, checkTransferLimit,
    calculateTransferFee, UpdateAccount, repoUpdateAccount, rowsAffected, updateRows,
    createTransaction, CreateTransaction, SetTransferAmountPerDayInRedis, accountCacheKey,
    sampleWorld, sampleAccount, sampleRequest, sampleParse, sampleFormat, defaultCache, limitCache, depositCache, scenarioA, scenarioScheduled, scheduledMessage, processScheduleTransaction,
    strings.Split, splitChars, scheduledRequest, zeroTransaction, zeroAccount,
    zeroScheduledTransaction, UpdateScheduledTransaction, repoUpdateScheduledTransaction,
    wireParse, sampleInt, sampleTime]
    iterate 4 (try norm_num; try simp)
  · simp [Transfer, Withdraw, Deposit, checkTransactionLimit, GetDailyLimit, GetSumDailyTransaction,
    GetAccountByAccountNo, fetchAccountFromDatabase, getAllAccount, checkTransferLimit,
    calculateTransferFee, UpdateAccount, repoUpdateAccount, rowsAffected, updateRows,
    createTransaction, CreateTransaction, SetTransferAmountPerDayInRedis, accountCacheKey,
    sampleWorld, sampleAccount, sampleRequest, sampleParse, sampleFormat, defaultCache, limitCache, depositCache, scenarioA, scenarioScheduled, scheduledMessage, processScheduleTransaction,
    strings.Split, splitChars, scheduledRequest, zeroTransaction, zeroAccount,
    zeroScheduledTransaction, UpdateScheduledTransaction, repoUpdateScheduledTransaction,
    wireParse, sampleInt, sampleTime]
    iterate 4 (try norm_num; try simp)

/-- C20, amended. Applying a scheduled-transfer message runs Transfer on the decoded request
without consulting the id or the status of the scheduled record: when the same six-field
message, naming distinct accounts, is applied twice and both applications succeed, the transfer
is applied twice, so the ledger returns the sender twice the amount plus fee below, and the
receiver twice the amount above, their balances before the first application. -/
theorem scheduled_apply_twice (pf : String → ℚ) (ff : ℚ → String) (pInt : String → Int)
    (pTime : String → Time) (w : World) (message : String)
    (f0 f1 f2 f3 f4 f5 : String) (rest : List String)
    (hsplit : strings.Split message '|' = f0 :: f1 :: f2 :: f3 :: f4 :: f5 :: rest)
    (hne : f3 ≠ f4)
    (hfirst : (processScheduleTransaction pf ff pInt pTime w message).err = none)
    (hsecond : (processScheduleTransaction pf ff pInt pTime (processScheduleTransaction pf ff pInt pTime w message).world message).err = none) :
    ∃ s r s2 r2,
      GetAccountByAccountNo w f3 = .ok (some s) ∧
      GetAccountByAccountNo w f4 = .ok (some r) ∧
      GetAccountByAccountNo (processScheduleTransaction pf ff pInt pTime (processScheduleTransaction pf ff pInt pTime w message).world message).world f3 = .ok (some s2) ∧
      GetAccountByAccountNo (processScheduleTransaction pf ff pInt pTime (processScheduleTransaction pf ff pInt pTime w message).world message).world f4 = .ok (some r2) ∧
      s2.Balance = s.Balance - 2 * (pf f2 + calculateTransferFee s r) ∧
      r2.Balance = r.Balance + 2 * pf f2 := by
  obtain ⟨ht1, ha1, hq1⟩ := processScheduleTransaction_ok hsplit hfirst
  obtain ⟨ht2, ha2, hq2⟩ := processScheduleTransaction_ok hsplit hsecond
  have hne1 : (scheduledRequest pf pTime f1 f2 f3 f4 f5).Account.AccountNo
      ≠ (scheduledRequest pf pTime f1 f2 f3 f4 f5).Receiver.AccountNo := hne
  obtain ⟨s, r, hs, hr, hs1, hr1⟩ := Transfer_ok_stored ht1 hne1
  obtain ⟨s1, r1, hs1b, hr1b, hs2, hr2⟩ := Transfer_ok_stored ht2 hne1
  rw [GetAccountByAccountNo_congr ha1 hq1, hs1] at hs1b
  rw [GetAccountByAccountNo_congr ha1 hq1, hr1] at hr1b
  simp only [Except.ok.injEq, Option.some.injEq] at hs1b hr1b
  subst hs1b
  subst hr1b
  rw [← GetAccountByAccountNo_congr ha2 hq2] at hs2 hr2
  refine ⟨s, r, _, _, hs, hr, hs2, hr2, ?_, ?_⟩
  · simp only [calculateTransferFee, scheduledRequest]
    ring
  · simp only [scheduledRequest]
    ring

/-- The amended C20 at the scenario of the counterexample: S goes from 5000 to 2980, that is
twice 1010 down, and R from 7 to 2007, twice 1000 up. -/
theorem scheduled_apply_twice_witness :
    strings.Split scheduledMessage '|'
      = ["1", "transfer", "1000.00", "S", "R", "2023-10-01 10:00:00 +0700 +07"] ∧
    ∃ s r s2 r2,
      GetAccountByAccountNo scenarioScheduled "S" = .ok (some s) ∧
      GetAccountByAccountNo scenarioScheduled "R" = .ok (some r) ∧
      GetAccountByAccountNo (processScheduleTransaction wireParse sampleFormat sampleInt sampleTime (processScheduleTransaction wireParse sampleFormat sampleInt sampleTime scenarioScheduled scheduledMessage).world
        scheduledMessage).world "S" = .ok (some s2) ∧
      GetAccountByAccountNo (processScheduleTransaction wireParse sampleFormat sampleInt sampleTime (processScheduleTransaction wireParse sampleFormat sampleInt sampleTime scenarioScheduled scheduledMessage).world
        scheduledMessage).world "R" = .ok (some r2) ∧
      s2.Balance = s.Balance - 2 * (wireParse "1000.00" + calculateTransferFee s r) ∧
      r2.Balance = r.Balance + 2 * wireParse "1000.00" :=
  have hsplit : strings.Split scheduledMessage '|'
      = ["1", "transfer", "1000.00", "S", "R", "2023-10-01 10:00:00 +0700 +07"] := by
    decide
  ⟨hsplit,
    scheduled_apply_twice wireParse sampleFormat sampleInt sampleTime scenarioScheduled
      scheduledMessage "1" "transfer" "1000.00" "S" "R" "2023-10-01 10:00:00 +0700 +07" []
      hsplit (by decide)
      (by
        simp [Transfer, Withdraw, Deposit, checkTransactionLimit, GetDailyLimit, GetSumDailyTransaction,
    GetAccountByAccountNo, fetchAccountFromDatabase, getAllAccount, checkTransferLimit,
    calculateTransferFee, UpdateAccount, repoUpdateAccount, rowsAffected, updateRows,
    createTransaction, CreateTransaction, SetTransferAmountPerDayInRedis, accountCacheKey,
    sampleWorld, sampleAccount, sampleRequest, sampleParse, sampleFormat, defaultCache, limitCache, depositCache, scenarioA, scenarioScheduled, scheduledMessage, processScheduleTransaction,
    strings.Split, splitChars, scheduledRequest, zeroTransaction, zeroAccount,
    zeroScheduledTransaction, UpdateScheduledTransaction, repoUpdateScheduledTransaction,
    wireParse, sampleInt, sampleTime]
        iterate 4 (try norm_num; try simp))
      (by
        simp [Transfer, Withdraw, Deposit, checkTransactionLimit, GetDailyLimit, GetSumDailyTransaction,
    GetAccountByAccountNo, fetchAccountFromDatabase, getAllAccount, checkTransferLimit,
    calculateTransferFee, UpdateAccount, repoUpdateAccount, rowsAffected, updateRows,
    createTransaction, CreateTransaction, SetTransferAmountPerDayInRedis, accountCacheKey,
    sampleWorld, sampleAccount, sampleRequest, sampleParse, sampleFormat, defaultCache, limitCache, depositCache, scenarioA, scenarioScheduled, scheduledMessage, processScheduleTransaction,
    strings.Split, splitChars, scheduledRequest, zeroTransaction, zeroAccount,
    zeroScheduledTransaction, UpdateScheduledTransaction, repoUpdateScheduledTransaction,
    wireParse, sampleInt, sampleTime]
        iterate 4 (try norm_num; try simp))⟩

/-! ## Claims on the apply step of the scheduled-transfer consumer -/

theorem UpdateAccount_scheduled (w : World) (ar : Account) :
    (UpdateAccount w ar).2.1.scheduled = w.scheduled ∧
    (UpdateAccount w ar).2.1.scheduledErr = w.scheduledErr := by
  unfold UpdateAccount
  cases hu : ar.UpdatedAt with
  | none => simp
  | some t =>
    simp only [repoUpdateAccount]
    split_ifs <;> simp

theorem createTransaction_scheduled (w : World) (tr : Transaction) :
    (createTransaction w tr).2.scheduled = w.scheduled ∧
    (createTransaction w tr).2.scheduledErr = w.scheduledErr := by
  unfold createTransaction CreateTransaction
  split_ifs <;> exact ⟨rfl, rfl⟩

theorem SetTransferAmountPerDayInRedis_scheduled (pf : String → ℚ) (ff : ℚ → String)
    (w : World) (tr : Transaction) :
    (SetTransferAmountPerDayInRedis pf ff w tr).2.scheduled = w.scheduled ∧
    (SetTransferAmountPerDayInRedis pf ff w tr).2.scheduledErr = w.scheduledErr := by
  unfold SetTransferAmountPerDayInRedis
  split_ifs <;> exact ⟨rfl, rfl⟩

/-- Transfer never touches the scheduled-transaction store. -/
theorem Transfer_scheduled (pf : String → ℚ) (ff : ℚ → String) (w : World) (tr : Transaction) :
    (Transfer pf ff w tr).world.scheduled = w.scheduled ∧
    (Transfer pf ff w tr).world.scheduledErr = w.scheduledErr := by
  unfold Transfer
  split
  · exact ⟨rfl, rfl⟩
  · split
    · exact ⟨rfl, rfl⟩
    · split
      · exact ⟨rfl, rfl⟩
      · exact ⟨rfl, rfl⟩
      · rename_i res hres
        split
        · exact ⟨rfl, rfl⟩
        · split
          · exact ⟨rfl, rfl⟩
          · rename_i acc hsender
            split
            · exact ⟨rfl, rfl⟩
            · dsimp only
              split
              · exact ⟨rfl, rfl⟩
              · have h1 := UpdateAccount_scheduled w
                  { acc with
                    Balance := acc.Balance - (tr.Amount + calculateTransferFee acc res) }
                split
                · rename_i e w1 x hu
                  rw [hu] at h1
                  exact h1
                · rename_i w1 acc2 hu
                  rw [hu] at h1
                  have h2 := UpdateAccount_scheduled w1
                    { res with Balance := res.Balance + tr.Amount }
                  split
                  · rename_i e w2 x hu2
                    rw [hu2] at h2
                    exact ⟨h2.1.trans h1.1, h2.2.trans h1.2⟩
                  · rename_i w2 res2 hu2
                    rw [hu2] at h2
                    have h3 := createTransaction_scheduled w2
                      { tr with Fee := calculateTransferFee acc res,
                                Total := tr.Amount + calculateTransferFee acc res }
                    split
                    · rename_i e w3 hc
                      rw [hc] at h3
                      exact ⟨h3.1.trans (h2.1.trans h1.1), h3.2.trans (h2.2.trans h1.2)⟩
                    · rename_i w3 hc
                      rw [hc] at h3
                      have h4 := SetTransferAmountPerDayInRedis_scheduled pf ff w3
                        { tr with Fee := calculateTransferFee acc res,
                                  Total := tr.Amount + calculateTransferFee acc res }
                      split
                      · rename_i e w4 hs
                        rw [hs] at h4
                        exact ⟨h4.1.trans (h3.1.trans (h2.1.trans h1.1)),
                          h4.2.trans (h3.2.trans (h2.2.trans h1.2))⟩
                      · rename_i w4 hs
                        rw [hs] at h4
                        exact ⟨h4.1.trans (h3.1.trans (h2.1.trans h1.1)),
                          h4.2.trans (h3.2.trans (h2.2.trans h1.2))⟩

/-- C21. Apply step, for a message of at least six fields. If the Transfer of the decoded
request succeeds, the scheduled store is handed the record with the id parsed from the first
field and the status "processed", the consumer returns what the store returns, and (the store
not failing) exactly the rows with that id are set to "processed". If the Transfer fails, its
error is returned and the scheduled store is left as it was. -/
theorem scheduled_apply_step (pf : String → ℚ) (ff : ℚ → String) (pInt : String → Int)
    (pTime : String → Time) (w : World) (message : String)
    (f0 f1 f2 f3 f4 f5 : String) (rest : List String)
    (hsplit : strings.Split message '|' = f0 :: f1 :: f2 :: f3 :: f4 :: f5 :: rest) :
    ((Transfer pf ff w (scheduledRequest pf pTime f1 f2 f3 f4 f5)).err = none →
      (processScheduleTransaction pf ff pInt pTime w message).err
        = (repoUpdateScheduledTransaction
            (Transfer pf ff w (scheduledRequest pf pTime f1 f2 f3 f4 f5)).world
            { zeroScheduledTransaction with Id := pInt f0, Status := "processed" }).1 ∧
      (processScheduleTransaction pf ff pInt pTime w message).world
        = (repoUpdateScheduledTransaction
            (Transfer pf ff w (scheduledRequest pf pTime f1 f2 f3 f4 f5)).world
            { zeroScheduledTransaction with Id := pInt f0, Status := "processed" }).2 ∧
      (w.scheduledErr = false →
        (processScheduleTransaction pf ff pInt pTime w message).err = none ∧
        (processScheduleTransaction pf ff pInt pTime w message).world.scheduled
          = w.scheduled.map (fun r =>
              if r.Id = pInt f0 then { r with Status := "processed" } else r))) ∧
    (∀ e, (Transfer pf ff w (scheduledRequest pf pTime f1 f2 f3 f4 f5)).err = some e →
      (processScheduleTransaction pf ff pInt pTime w message).err = some e ∧
      (processScheduleTransaction pf ff pInt pTime w message).world
        = (Transfer pf ff w (scheduledRequest pf pTime f1 f2 f3 f4 f5)).world ∧
      (processScheduleTransaction pf ff pInt pTime w message).world.scheduled = w.scheduled) := by
  have hfr := Transfer_scheduled pf ff w (scheduledRequest pf pTime f1 f2 f3 f4 f5)
  unfold processScheduleTransaction
  rw [hsplit]
  simp only
  refine ⟨?_, ?_⟩
  · intro hok
    rw [hok]
    simp only
    refine ⟨rfl, rfl, ?_⟩
    intro hse
    have hse1 : (Transfer pf ff w (scheduledRequest pf pTime f1 f2 f3 f4 f5)).world.scheduledErr
        = false := by rw [hfr.2, hse]
    simp [UpdateScheduledTransaction, repoUpdateScheduledTransaction, hse1, hfr.1,
      zeroScheduledTransaction]
  · intro e he
    rw [he]
    exact ⟨rfl, rfl, hfr.1⟩

/-- In scenario A with the scheduled transfer 1 pending, its message is applied: the Transfer
succeeds and the record 1 becomes processed. The same message with the unknown receiver Z is
refused by the Transfer, whose error is returned, and the record stays pending. -/
theorem scheduled_apply_step_witness :
    strings.Split scheduledMessage '|'
      = ["1", "transfer", "1000.00", "S", "R", "2023-10-01 10:00:00 +0700 +07"] ∧
    (processScheduleTransaction wireParse sampleFormat sampleInt sampleTime scenarioScheduled scheduledMessage).err = none ∧
    (processScheduleTransaction wireParse sampleFormat sampleInt sampleTime scenarioScheduled scheduledMessage).world.scheduled.map (fun r => (r.Id, r.Status))
      = [(1, "processed")] ∧
    strings.Split "1|transfer|1000.00|S|Z|now" '|'
      = ["1", "transfer", "1000.00", "S", "Z", "now"] ∧
    (processScheduleTransaction wireParse sampleFormat sampleInt sampleTime scenarioScheduled "1|transfer|1000.00|S|Z|now").err = some .ErrNotFound ∧
    (processScheduleTransaction wireParse sampleFormat sampleInt sampleTime scenarioScheduled "1|transfer|1000.00|S|Z|now").world.scheduled.map
      (fun r => (r.Id, r.Status)) = [(1, "pending")] :=
  have hsplit : strings.Split scheduledMessage '|'
      = ["1", "transfer", "1000.00", "S", "R", "2023-10-01 10:00:00 +0700 +07"] := by
    decide
  have hsplitZ : strings.Split "1|transfer|1000.00|S|Z|now" '|'
      = ["1", "transfer", "1000.00", "S", "Z", "now"] := by
    decide
  have hok := (scheduled_apply_step wireParse sampleFormat sampleInt sampleTime
    scenarioScheduled scheduledMessage "1" "transfer" "1000.00" "S" "R"
    "2023-10-01 10:00:00 +0700 +07" [] hsplit).1
    (by
      simp [Transfer, Withdraw, Deposit, checkTransactionLimit, GetDailyLimit, GetSumDailyTransaction,
    GetAccountByAccountNo, fetchAccountFromDatabase, getAllAccount, checkTransferLimit,
    calculateTransferFee, UpdateAccount, repoUpdateAccount, rowsAffected, updateRows,
    createTransaction, CreateTransaction, SetTransferAmountPerDayInRedis, accountCacheKey,
    sampleWorld, sampleAccount, sampleRequest, sampleParse, sampleFormat, defaultCache, limitCache, depositCache, scenarioA, scenarioScheduled, scheduledMessage, processScheduleTransaction,
    strings.Split, splitChars, scheduledRequest, zeroTransaction, zeroAccount,
    zeroScheduledTransaction, UpdateScheduledTransaction, repoUpdateScheduledTransaction,
    wireParse, sampleInt, sampleTime]
      norm_num)
  have hfail := (scheduled_apply_step wireParse sampleFormat sampleInt sampleTime
    scenarioScheduled "1|transfer|1000.00|S|Z|now" "1" "transfer" "1000.00" "S" "Z" "now" []
    hsplitZ).2 .ErrNotFound
    (by
      simp [Transfer, Withdraw, Deposit, checkTransactionLimit, GetDailyLimit, GetSumDailyTransaction,
    GetAccountByAccountNo, fetchAccountFromDatabase, getAllAccount, checkTransferLimit,
    calculateTransferFee, UpdateAccount, repoUpdateAccount, rowsAffected, updateRows,
    createTransaction, CreateTransaction, SetTransferAmountPerDayInRedis, accountCacheKey,
    sampleWorld, sampleAccount, sampleRequest, sampleParse, sampleFormat, defaultCache, limitCache, depositCache, scenarioA, scenarioScheduled, scheduledMessage, processScheduleTransaction,
    strings.Split, splitChars, scheduledRequest, zeroTransaction, zeroAccount,
    zeroScheduledTransaction, UpdateScheduledTransaction, repoUpdateScheduledTransaction,
    wireParse, sampleInt, sampleTime]
      norm_num)
  have hse : scenarioScheduled.scheduledErr = false := by
    simp [scenarioScheduled, scenarioA, sampleWorld]
  ⟨hsplit, (hok.2.2 hse).1,
    by
      rw [(hok.2.2 hse).2]
      simp [scenarioScheduled, sampleInt, zeroScheduledTransaction],
    hsplitZ, hfail.1,
    by
      rw [hfail.2.2]
      simp [scenarioScheduled, zeroScheduledTransaction]⟩

/-! ## Claims on the broker messages -/

/-- AddTransactionToQueue publishes one message per record, in the order of the slice, each
the pipe-joined rendering of the record, and returns no error. -/
theorem AddTransactionToQueue_eq (fmtInt : Int → String) (fmt2 : ℚ → String)
    (fmtTime : Time → String) (log : List (String × String))
    (transaction : List ScheduledTransaction) :
    AddTransactionToQueue fmtInt fmt2 fmtTime log transaction
      = (none, log ++ transaction.map (fun st =>
          ("scheduled_transactions", scheduledWireMessage fmtInt fmt2 fmtTime st))) := by
  unfold AddTransactionToQueue
  congr 1
  induction transaction generalizing log with
  | nil => simp
  | cons st rest ih =>
    simp only [List.foldl_cons, List.map_cons]
    rw [ih]
    simp [RunKafkaProducer]

/-- C22 fails on the code: the scheduled transfer 1, submitted at the instant 100 and created
at the instant 200, is published as one message whose last field renders the instant 200, the
creation time, and not the submission time. -/
theorem scheduled_wire_timestamp :
    sampleScheduled.SubmittedAt = 100 ∧ sampleScheduled.CreatedAt = 200 ∧
    sampleFmtTime 100 = "T100" ∧
    AddTransactionToQueue sampleFmtInt sampleFmt2 sampleFmtTime [] [sampleScheduled]
      = (none, [("scheduled_transactions", "1|transfer|1000.00|S|R|T200")]) := by
  refine ⟨rfl, rfl, by decide, ?_⟩
  rw [AddTransactionToQueue_eq]
  simp [scheduledWireMessage, sampleScheduled, sampleFmtInt, sampleFmt2, sampleFmtTime,
    zeroScheduledTransaction, zeroAccount]

/-- C24. Poll bucketing: the fetch time of a tick is a multiple of 5 minutes, it is at most
the instant of the tick and less than 5 minutes before it; at minute 12 of any hour it is
minute 10 of that hour; and a 5-minute mark is reached by the fetch time exactly when it is
reached by the instant of the tick. -/
theorem poll_bucketing (now : Time) :
    (∃ k : Int, pollingFetchTime now = k * (5 * Minute)) ∧
    pollingFetchTime now ≤ now ∧
    now - pollingFetchTime now < 5 * Minute ∧
    (∀ hour s : Int, 0 ≤ s → s < Minute →
      pollingFetchTime ((hour * 60 + 12) * Minute + s) = (hour * 60 + 10) * Minute) ∧
    (∀ k : Int, k * (5 * Minute) ≤ pollingFetchTime now ↔ k * (5 * Minute) ≤ now) := by
  have hT : ∀ t : Int, pollingFetchTime t = t - t % 300000000000 := by
    intro t
    simp [pollingFetchTime, Truncate, Minute]
  have hM : Minute = 60000000000 := by simp [Minute]
  simp only [hT, hM]
  unfold Time at *
  refine ⟨⟨now / 300000000000, by omega⟩, by omega, by omega, ?_, ?_⟩
  · intro hour s h0 h1
    omega
  · intro k
    omega

/-- At 12 minutes and 30 seconds past the hour 7 the fetch time is minute 10 of the hour 7;
the mark of minute 15 is not reached then, and is reached at minute 15 exactly. -/
theorem poll_bucketing_witness :
    pollingFetchTime ((7 * 60 + 12) * Minute + 30000000000) = (7 * 60 + 10) * Minute ∧
    ¬ ((7 * 12 + 3) * (5 * Minute)
      ≤ pollingFetchTime ((7 * 60 + 12) * Minute + 30000000000)) ∧
    (7 * 12 + 3) * (5 * Minute) ≤ pollingFetchTime ((7 * 60 + 15) * Minute) :=
  ⟨(poll_bucketing 0).2.2.2.1 7 30000000000 (by decide) (by decide),
    fun h => absurd
      (((poll_bucketing ((7 * 60 + 12) * Minute + 30000000000)).2.2.2.2 (7 * 12 + 3)).mp h)
      (by decide),
    ((poll_bucketing ((7 * 60 + 15) * Minute)).2.2.2.2 (7 * 12 + 3)).mpr (by decide)⟩

/-- C25, as stated, fails: a request whose body cannot be bound is answered 422 Unprocessable
Entity, not 400, by the transfer endpoint and by the schedule endpoint. -/
theorem handler_malformed_body_counterexample :
    TransactionHandler.Transfer sampleParse sampleFormat scenarioA none = (422, scenarioA) ∧
    TransactionHandler.ScheduledTransaction scenarioA none = (422, scenarioA) ∧
    (422 : Nat) ≠ 400 := by
  refine ⟨rfl, rfl, by decide⟩

/-- C25, amended. On the transfer and schedule endpoints a request whose body cannot be bound
is answered 422, and a bound request whose sender account number equals the receiver's or whose
amount is ≤ 0 is answered 400; in all these cases the world is left as it was, whatever it
holds: neither Transfer nor SaveScheduledTransaction is invoked. -/
theorem handler_validation (pf : String → ℚ) (ff : ℚ → String) (w : World) :
    TransactionHandler.Transfer pf ff w none = (422, w) ∧
    TransactionHandler.ScheduledTransaction w none = (422, w) ∧
    (∀ tr : Transaction, tr.Account.AccountNo = tr.Receiver.AccountNo ∨ tr.Amount ≤ 0 →
      TransactionHandler.Transfer pf ff w (some tr) = (400, w)) ∧
    (∀ st : ScheduledTransaction,
      st.Account.AccountNo = st.Receiver.AccountNo ∨ st.Amount ≤ 0 →
      TransactionHandler.ScheduledTransaction w (some st) = (400, w)) := by
  refine ⟨rfl, rfl, ?_, ?_⟩
  · intro tr h
    unfold TransactionHandler.Transfer
    by_cases ht : tr.Typ ≠ "transfer"
    · simp [ht]
    · by_cases hs : tr.Account.AccountNo = tr.Receiver.AccountNo
      · simp [ht, hs]
      · rcases h with h | h
        · exact absurd h hs
        · simp [ht, hs, h]
  · intro st h
    unfold TransactionHandler.ScheduledTransaction
    by_cases ht : st.Typ ≠ "transfer"
    · simp [ht]
    · by_cases hs : st.Account.AccountNo = st.Receiver.AccountNo
      · simp [ht, hs]
      · rcases h with h | h
        · exact absurd h hs
        · simp [ht, hs, h]

/-- The schedule endpoint at the scheduled transfer 1 with its amount set to 0, and the
transfer endpoint at a request from S to S: both are answered 400 and nothing is stored; the
valid scheduled transfer 1 is answered 201 and stored as pending. -/
theorem handler_validation_witness :
    TransactionHandler.ScheduledTransaction scenarioA (some { sampleScheduled with Amount := 0 })
      = (400, scenarioA) ∧
    TransactionHandler.Transfer sampleParse sampleFormat scenarioA
      (some (sampleRequest "transfer" "S" "S" 1000)) = (400, scenarioA) ∧
    (TransactionHandler.ScheduledTransaction scenarioA (some sampleScheduled)).1 = 201 ∧
    (TransactionHandler.ScheduledTransaction scenarioA (some sampleScheduled)).2.scheduled.map
      (fun r => (r.Id, r.Status)) = [(1, "pending")] :=
  ⟨(handler_validation sampleParse sampleFormat scenarioA).2.2.2
      { sampleScheduled with Amount := 0 } (Or.inr (le_refl _)),
    (handler_validation sampleParse sampleFormat scenarioA).2.2.1
      (sampleRequest "transfer" "S" "S" 1000) (Or.inl rfl),
    by
      simp [TransactionHandler.ScheduledTransaction, SaveScheduledTransaction,
        CreateScheduledTransaction, sampleScheduled, zeroScheduledTransaction, zeroAccount,
        scenarioA, sampleWorld]
      norm_num,
    by
      simp [TransactionHandler.ScheduledTransaction, SaveScheduledTransaction,
        CreateScheduledTransaction, sampleScheduled, zeroScheduledTransaction, zeroAccount,
        scenarioA, sampleWorld]
      norm_num⟩

/-- C26. Error-to-status mapping: getStatusCode gives 200 for a nil error, 404 for ErrNotFound,
409 for ErrConflict and 500 for every other error, among them ErrInsufficientBalance,
ErrMinimumDeposit, the two limit errors and ErrAccDeleted. -/
theorem status_code_mapping :
    getStatusCode none = 200 ∧
    getStatusCode (some .ErrNotFound) = 404 ∧
    getStatusCode (some .ErrConflict) = 409 ∧
    (∀ e : Error, e ≠ .ErrNotFound → e ≠ .ErrConflict → getStatusCode (some e) = 500) ∧
    getStatusCode (some .ErrInsufficientBalance) = 500 ∧
    getStatusCode (some .ErrMinimumDeposit) = 500 ∧
    getStatusCode (some .ErrExceedLimitAmountPerTransaction) = 500 ∧
    getStatusCode (some (.errorf "exceed limit per day")) = 500 ∧
    getStatusCode (some .ErrAccDeleted) = 500 := by
  refine ⟨rfl, rfl, rfl, ?_, rfl, rfl, rfl, rfl, rfl⟩
  intro e h1 h2
  cases e <;> simp_all [getStatusCode]

/-- The mapping at the error of a failed database call, which is neither ErrNotFound nor
ErrConflict: the status is 500. -/
theorem status_code_mapping_witness :
    Error.driver "exec" ≠ .ErrNotFound ∧ Error.driver "exec" ≠ .ErrConflict ∧
    getStatusCode (some (.driver "exec")) = 500 :=
  ⟨by decide, by decide, status_code_mapping.2.2.2.1 (.driver "exec") (by decide) (by decide)⟩

/-- C27 fails on the code: a Withdraw request for 200 from S that carries the fee 5 succeeds in
scenario A and the record handed to the store has fee 5; a Deposit request for 20 to D that
carries the fee 5 succeeds in the deposit scenario and its record has fee 5 as well. -/
theorem withdraw_deposit_record_fee :
    (Withdraw scenarioA { sampleRequest "withdraw" "S" "" 200 with Fee := 5 }).err = none ∧
    (Withdraw scenarioA
      { sampleRequest "withdraw" "S" "" 200 with Fee := 5 }).world.transactions.map
      (fun t => t.Fee) = [5] ∧
    (Deposit sampleParse scenarioDeposit
      { sampleRequest "deposit" "D" "" 20 with Fee := 5 }).err = none ∧
    (Deposit sampleParse scenarioDeposit
      { sampleRequest "deposit" "D" "" 20 with Fee := 5 }).world.transactions.map
      (fun t => t.Fee) = [5] := by
  refine ⟨?_, ?_, ?_, ?_⟩
  · simp [Transfer, Withdraw, Deposit, checkTransactionLimit, GetDailyLimit, GetSumDailyTransaction,
    GetAccountByAccountNo, fetchAccountFromDatabase, getAllAccount, checkTransferLimit,
    calculateTransferFee, UpdateAccount, repoUpdateAccount, rowsAffected, updateRows,
    createTransaction, CreateTransaction, SetTransferAmountPerDayInRedis, accountCacheKey,
    sampleWorld, sampleAccount, sampleRequest, sampleParse, sampleFormat, defaultCache, limitCache, depositCache, scenarioA, scenarioScheduled, scheduledMessage, processScheduleTransaction,
    strings.Split, splitChars, scheduledRequest, zeroTransaction, zeroAccount,
    zeroScheduledTransaction, UpdateScheduledTransaction, repoUpdateScheduledTransaction,
    wireParse, sampleInt, sampleTime]
    norm_num
  · simp [Transfer, Withdraw, Deposit, checkTransactionLimit, GetDailyLimit, GetSumDailyTransaction,
    GetAccountByAccountNo, fetchAccountFromDatabase, getAllAccount, checkTransferLimit,
    calculateTransferFee, UpdateAccount, repoUpdateAccount, rowsAffected, updateRows,
    createTransaction, CreateTransaction, SetTransferAmountPerDayInRedis, accountCacheKey,
    sampleWorld, sampleAccount, sampleRequest, sampleParse, sampleFormat, defaultCache, limitCache, depositCache, scenarioA, scenarioScheduled, scheduledMessage, processScheduleTransaction,
    strings.Split, splitChars, scheduledRequest, zeroTransaction, zeroAccount,
    zeroScheduledTransaction, UpdateScheduledTransaction, repoUpdateScheduledTransaction,
    wireParse, sampleInt, sampleTime]
    norm_num
  · simp [scenarioDeposit, Transfer, Withdraw, Deposit, checkTransactionLimit, GetDailyLimit, GetSumDailyTransaction,
    GetAccountByAccountNo, fetchAccountFromDatabase, getAllAccount, checkTransferLimit,
    calculateTransferFee, UpdateAccount, repoUpdateAccount, rowsAffected, updateRows,
    createTransaction, CreateTransaction, SetTransferAmountPerDayInRedis, accountCacheKey,
    sampleWorld, sampleAccount, sampleRequest, sampleParse, sampleFormat, defaultCache, limitCache, depositCache, scenarioA, scenarioScheduled, scheduledMessage, processScheduleTransaction,
    strings.Split, splitChars, scheduledRequest, zeroTransaction, zeroAccount,
    zeroScheduledTransaction, UpdateScheduledTransaction, repoUpdateScheduledTransaction,
    wireParse, sampleInt, sampleTime]
  · simp [scenarioDeposit, Transfer, Withdraw, Deposit, checkTransactionLimit, GetDailyLimit, GetSumDailyTransaction,
    GetAccountByAccountNo, fetchAccountFromDatabase, getAllAccount, checkTransferLimit,
    calculateTransferFee, UpdateAccount, repoUpdateAccount, rowsAffected, updateRows,
    createTransaction, CreateTransaction, SetTransferAmountPerDayInRedis, accountCacheKey,
    sampleWorld, sampleAccount, sampleRequest, sampleParse, sampleFormat, defaultCache, limitCache, depositCache, scenarioA, scenarioScheduled, scheduledMessage, processScheduleTransaction,
    strings.Split, splitChars, scheduledRequest, zeroTransaction, zeroAccount,
    zeroScheduledTransaction, UpdateScheduledTransaction, repoUpdateScheduledTransaction,
    wireParse, sampleInt, sampleTime]

/-! ## Claims on the codec of the scheduled-transfer topic -/

theorem splitChars_no_sep (sep : Char) (l : List Char) (h : sep ∉ l) :
    splitChars sep l = [l] := by
  induction l with
  | nil => rfl
  | cons c cs ih =>
    have hc : c ≠ sep := fun hcs => h (hcs ▸ List.mem_cons_self _ _)
    have hcs : sep ∉ cs := fun hm => h (List.mem_cons_of_mem _ hm)
    simp [splitChars, hc, ih hcs]

theorem splitChars_append (sep : Char) (a rest : List Char) (h : sep ∉ a) :
    splitChars sep (a ++ sep :: rest) = a :: splitChars sep rest := by
  induction a with
  | nil => simp [splitChars]
  | cons c cs ih =>
    have hc : c ≠ sep := fun hcs => h (hcs ▸ List.mem_cons_self _ _)
    have hcs : sep ∉ cs := fun hm => h (List.mem_cons_of_mem _ hm)
    simp [splitChars, hc, ih hcs]

/-- Splitting a text that starts with a bar-free field followed by a bar. -/
theorem Split_field (a rest : String) (h : '|' ∉ a.data) :
    strings.Split (a ++ "|" ++ rest) '|' = a :: strings.Split rest '|' := by
  unfold strings.Split
  have hd : (a ++ "|" ++ rest).data = a.data ++ '|' :: rest.data := by
    simp [String.data_append]
  rw [hd, splitChars_append _ _ _ h]
  simp

theorem Split_last (a : String) (h : '|' ∉ a.data) : strings.Split a '|' = [a] := by
  unfold strings.Split
  rw [splitChars_no_sep _ _ h]
  simp

/-- A message of fewer than six fields makes the consumer index a missing field. -/
theorem processScheduleTransaction_short (pf : String → ℚ) (ff : ℚ → String)
    (pInt : String → Int) (pTime : String → Time) (w : World) (message : String)
    (hlen : (strings.Split message '|').length < 6) :
    processScheduleTransaction pf ff pInt pTime w message = ⟨some .indexPanic, w, zeroTransaction⟩ := by
  unfold processScheduleTransaction
  split
  · rename_i f0 f1 f2 f3 f4 f5 rest heq
    rw [heq] at hlen
    simp at hlen
    omega
  · rfl

/-- Whenever the daily check fails in a world, Transfer returns the daily-limit error in every
world with the same cache, and changes nothing. -/
theorem Transfer_over_limit (pf : String → ℚ) (ff : ℚ → String) (w : World) (tr : Transaction)
    (hover : (GetDailyLimit pf w tr.Account.AccountNo).1
      < (GetSumDailyTransaction pf w tr.Account.AccountNo).1 + tr.Amount)
    (w1 : World) (hw1 : w1.redis = w.redis) :
    Transfer pf ff w1 tr = ⟨some (.errorf "exceed limit per day"), w1, tr⟩ := by
  have hd : GetDailyLimit pf w1 tr.Account.AccountNo
      = GetDailyLimit pf w tr.Account.AccountNo := by
    simp [GetDailyLimit, hw1]
  have hs : GetSumDailyTransaction pf w1 tr.Account.AccountNo
      = GetSumDailyTransaction pf w tr.Account.AccountNo := by
    simp [GetSumDailyTransaction, hw1]
  have herr : (GetDailyLimit pf w tr.Account.AccountNo).2 = none := GetDailyLimit_err pf w _
  have hfalse : checkTransactionLimit pf w1 tr = false := by
    unfold checkTransactionLimit
    rw [hd, hs]
    rcases hg : GetDailyLimit pf w tr.Account.AccountNo with ⟨d, e⟩
    rw [hg] at herr hover
    simp only at herr hover
    subst herr
    simp only [gt_iff_lt]
    rw [add_comm] at hover
    simp [hover]
  simp [Transfer, hfalse]

/-- C29, as stated, fails: the message "1|transfer" splits into two fields, and the consumer,
after reporting the unexpected format on the console, goes on to read the third field, which
does not exist: the run ends in an index-out-of-range panic instead of a rejection. Only the
second half of the claim holds: no Transfer is attempted, the world is unchanged. -/
theorem scheduled_decoder_short_message :
    (strings.Split "1|transfer" '|').length = 2 ∧
    processScheduleTransaction wireParse sampleFormat sampleInt sampleTime scenarioScheduled
      "1|transfer" = ⟨some .indexPanic, scenarioScheduled, zeroTransaction⟩ := by
  have hlen : (strings.Split "1|transfer" '|').length = 2 := by decide
  exact ⟨hlen, processScheduleTransaction_short _ _ _ _ _ _ (by rw [hlen]; decide)⟩

/-- C30. Cold-cache daily limit fails closed. GetDailyLimit never returns an error. When the
reader of decimals maps the empty text to 0 (as strconv.ParseFloat does, whose error the code
drops) and neither the limit of the account nor the global default is cached, GetDailyLimit
returns 0; then, with a non-negative running sum, every Transfer of a positive amount returns
the daily-limit error and changes nothing, for every content of the ledger and every failure
of the database, since no account is read. -/
theorem cold_cache_fails_closed (pf : String → ℚ) (ff : ℚ → String) (w : World)
    (tr : Transaction) (hempty : pf "" = 0)
    (hacc : w.redis ("daily_limit_" ++ tr.Account.AccountNo) = .Nil)
    (hdef : w.redis "default_daily_limit" = .Nil) :
    (∀ (w1 : World) (account_no : String), (GetDailyLimit pf w1 account_no).2 = none) ∧
    GetDailyLimit pf w tr.Account.AccountNo = (0, none) ∧
    (0 ≤ (GetSumDailyTransaction pf w tr.Account.AccountNo).1 → 0 < tr.Amount →
      checkTransactionLimit pf w tr = false ∧
      Transfer pf ff w tr = ⟨some (.errorf "exceed limit per day"), w, tr⟩ ∧
      (∀ (rows : List Account) (qe ee : String → Bool),
        Transfer pf ff { w with accounts := rows, queryErr := qe, execErr := ee } tr
          = ⟨some (.errorf "exceed limit per day"),
              { w with accounts := rows, queryErr := qe, execErr := ee }, tr⟩)) := by
  have hzero : GetDailyLimit pf w tr.Account.AccountNo = (0, none) := by
    simp [GetDailyLimit, hacc, hdef, hempty]
  refine ⟨fun w1 account_no => GetDailyLimit_err pf w1 account_no, hzero, ?_⟩
  intro hsum hamt
  have hover : (GetDailyLimit pf w tr.Account.AccountNo).1
      < (GetSumDailyTransaction pf w tr.Account.AccountNo).1 + tr.Amount := by
    rw [hzero]
    simp only
    linarith
  refine ⟨?_, Transfer_over_limit pf ff w tr hover w rfl, ?_⟩
  · unfold checkTransactionLimit
    rw [hzero]
    simp only [gt_iff_lt]
    have : (0 : ℚ) < tr.Amount + (GetSumDailyTransaction pf w tr.Account.AccountNo).1 := by
      linarith
    simp [this]
  · intro rows qe ee
    exact Transfer_over_limit pf ff w tr hover _ rfl

/-- Over the empty cache, where S and R both hold 5000 at the same bank, the daily limit of S
reads 0 and a Transfer of 1 from S to R is refused with the daily-limit error. -/
theorem cold_cache_fails_closed_witness :
    GetAccountByAccountNo scenarioCold "S" = .ok (sampleAccount "S" "X" "active" 5000) ∧
    GetDailyLimit sampleParse scenarioCold "S" = (0, none) ∧
    Transfer sampleParse sampleFormat scenarioCold (sampleRequest "transfer" "S" "R" 1)
      = ⟨some (.errorf "exceed limit per day"), scenarioCold,
          sampleRequest "transfer" "S" "R" 1⟩ :=
  have h := cold_cache_fails_closed sampleParse sampleFormat scenarioCold
    (sampleRequest "transfer" "S" "R" 1) (by simp [sampleParse])
    (by simp [scenarioCold, sampleWorld, coldCache])
    (by simp [scenarioCold, sampleWorld, coldCache])
  ⟨by simp [scenarioCold, GetAccountByAccountNo, fetchAccountFromDatabase, getAllAccount,
      sampleWorld, sampleAccount],
   h.2.1,
   (h.2.2 (by simp [GetSumDailyTransaction, scenarioCold, sampleWorld, coldCache, sampleRequest])
      (by simp [sampleRequest])).2.1⟩

end Atm
